import Mathlib

/-! cpuid_tool: command line parsing and the driver

A shallow embedding of `src/cpuid_tool/cpuid_tool.c`: the option table
(`matchtable`), the argument parser (`parse_cmdline`), the decision function
`check_need_raw_data` and the driver (`main`).

Conventions of the embedding.

* A C string is the list of its characters before the terminating NUL, one
  `Char` for each C `char`; `arg[i]` reads NUL at index `strlen(arg)`.
* The global variables form the record `RunConfig`; functions that write
  globals take the record and return the new one.
* The array `requests` together with `num_requests` is the list of the first
  `num_requests` entries; `requests[num_requests++] = x` appends `x`.
* `int` values are integers; no counter of the program can reach `2^31`
  without a command line of that many characters.
* The source calls `strcpy` into the two 256-byte buffers without a bound
  (lines 216, 230, 237). For a source of at most 255 characters the copy is
  the assignment of the buffer. A longer source writes past the end of the
  buffer; C leaves that undefined and what is overwritten depends on how the
  globals are laid out, so the embedding gives such a call no result (`none`).
  `path_fits` says when an argument cannot cause this, and the properties of
  calls over all argument vectors are stated for vectors whose paths fit.
* Calls into libcpuid and the C library are recorded as events; the results
  the driver branches on are taken from an `Env` record.
-/

namespace CpuidTool

/-! ## Data model -/

/-- Contents of a C string: the characters before the terminating NUL. -/
abbrev CStr := List Char

/-- The terminating character of a C string. -/
def NUL : Char := Char.ofNat 0

/-- The enumeration `output_data_switch` (lines 58-87). -/
inductive output_data_switch
  | NEED_CPUID_PRESENT
  | NEED_VENDOR_STR
  | NEED_VENDOR_ID
  | NEED_BRAND_STRING
  | NEED_FAMILY
  | NEED_MODEL
  | NEED_STEPPING
  | NEED_EXT_FAMILY
  | NEED_EXT_MODEL
  | NEED_NUM_CORES
  | NEED_NUM_LOGICAL
  | NEED_TOTAL_CPUS
  | NEED_L1D_SIZE
  | NEED_L1I_SIZE
  | NEED_L2_SIZE
  | NEED_L3_SIZE
  | NEED_L1D_ASSOC
  | NEED_L2_ASSOC
  | NEED_L3_ASSOC
  | NEED_L1D_CACHELINE
  | NEED_L2_CACHELINE
  | NEED_L3_CACHELINE
  | NEED_CODENAME
  | NEED_FEATURES
  | NEED_CLOCK
  | NEED_CLOCK_OS
  | NEED_CLOCK_RDTSC
  | NEED_RDMSR
  deriving DecidableEq, Repr

open output_data_switch

/-- The global variables of the tool (lines 56-57, 89-101). -/
structure RunConfig where
  raw_data_file : CStr
  out_file : CStr
  need_input : Int
  need_output : Int
  need_quiet : Int
  need_report : Int
  need_clockreport : Int
  need_timed_clockreport : Int
  verbose_level : Int
  need_version : Int
  need_cpulist : Int
  requests : List output_data_switch
  deriving DecidableEq, Repr

/-- The variable `num_requests`: the number of filled entries of `requests`. -/
def RunConfig.num_requests (c : RunConfig) : Int := c.requests.length

/-- The values the globals have when the program starts (their initialisers). -/
def initial_config : RunConfig :=
  { raw_data_file := [], out_file := [],
    need_input := 0, need_output := 0, need_quiet := 0, need_report := 0,
    need_clockreport := 0, need_timed_clockreport := 0, verbose_level := 0,
    need_version := 0, need_cpulist := 0, requests := [] }

/-- The constant `MAX_REQUESTS` (line 99). -/
def MAX_REQUESTS : Int := 32

/-- One row of `matchtable` (line 106). -/
structure OptionEntry where
  sw : output_data_switch
  synopsis : CStr
  ident_required : Int
  deriving DecidableEq, Repr

/-- The table `matchtable` (lines 107-137). -/
def matchtable : List OptionEntry :=
  [ ⟨NEED_CPUID_PRESENT, "--cpuid".toList, 0⟩,
    ⟨NEED_VENDOR_STR, "--vendorstr".toList, 1⟩,
    ⟨NEED_VENDOR_ID, "--vendorid".toList, 1⟩,
    ⟨NEED_BRAND_STRING, "--brandstr".toList, 1⟩,
    ⟨NEED_FAMILY, "--family".toList, 1⟩,
    ⟨NEED_MODEL, "--model".toList, 1⟩,
    ⟨NEED_STEPPING, "--stepping".toList, 1⟩,
    ⟨NEED_EXT_FAMILY, "--extfamily".toList, 1⟩,
    ⟨NEED_EXT_MODEL, "--extmodel".toList, 1⟩,
    ⟨NEED_NUM_CORES, "--cores".toList, 1⟩,
    ⟨NEED_NUM_LOGICAL, "--logical".toList, 1⟩,
    ⟨NEED_TOTAL_CPUS, "--total-cpus".toList, 1⟩,
    ⟨NEED_L1D_SIZE, "--l1d-cache".toList, 1⟩,
    ⟨NEED_L1I_SIZE, "--l1i-cache".toList, 1⟩,
    ⟨NEED_L2_SIZE, "--cache".toList, 1⟩,
    ⟨NEED_L2_SIZE, "--l2-cache".toList, 1⟩,
    ⟨NEED_L3_SIZE, "--l3-cache".toList, 1⟩,
    ⟨NEED_L1D_ASSOC, "--l1d-assoc".toList, 1⟩,
    ⟨NEED_L2_ASSOC, "--l2-assoc".toList, 1⟩,
    ⟨NEED_L3_ASSOC, "--l3-assoc".toList, 1⟩,
    ⟨NEED_L1D_CACHELINE, "--l1d-cacheline".toList, 1⟩,
    ⟨NEED_L2_CACHELINE, "--l2-cacheline".toList, 1⟩,
    ⟨NEED_L3_CACHELINE, "--l3-cacheline".toList, 1⟩,
    ⟨NEED_CODENAME, "--codename".toList, 1⟩,
    ⟨NEED_FEATURES, "--flags".toList, 1⟩,
    ⟨NEED_CLOCK, "--clock".toList, 0⟩,
    ⟨NEED_CLOCK_OS, "--clock-os".toList, 0⟩,
    ⟨NEED_CLOCK_RDTSC, "--clock-rdtsc".toList, 1⟩,
    ⟨NEED_RDMSR, "--rdmsr".toList, 0⟩ ]

/-- What the program writes and which library entry points it calls, in order. -/
inductive Event
  /-- The text printed by `usage()`. -/
  | usage_text
  /-- The two lines written by the `xerror` macro for the message `msg`. -/
  | xerror (msg : String)
  /-- The two lines written for an argument that no rule recognised. -/
  | unrecognized_option (arg : CStr)
  | set_warn_function_null
  | set_verbosiness_level (level : Int)
  | fopen_out (path : CStr)
  | cannot_open_out (path : CStr)
  | atexit_close_out
  | print_lib_version
  /-- The call `cpuid_deserialize_raw_data(&raw, path)`. -/
  | deserialize_raw_data (path : CStr)
  | cannot_deserialize (from_stdin : Bool) (path : CStr)
  /-- The call `cpuid_get_raw_data(&raw)`. -/
  | get_raw_data
  | cannot_obtain_raw
  /-- The line `Error: %s` with the text of `cpuid_error()`. -/
  | error_detail
  | writing_raw_dump (path : CStr)
  /-- The call `cpuid_serialize_raw_data(&raw, path)`. -/
  | serialize_raw_data (path : CStr)
  | cannot_serialize (to_stdout : Bool) (path : CStr)
  | writing_report (path : CStr)
  | report_cpuid_present
  /-- The call `cpu_identify(&raw, &data)`. -/
  | identify
  | report_identify_error
  /-- The block of report lines written from `data` (lines 555-586). -/
  | report_body
  /-- The clock line of the report; `timed` tells the RDTSC routine was used. -/
  | report_clock (timed : Bool)
  | query_identify_error
  /-- The call `print_info(query, &raw, &data)`. -/
  | print_info (query : output_data_switch)
  | print_cpulist
  deriving DecidableEq, Repr

/-! ## String functions of the C library -/

/-- The function `strcmp`: zero exactly for equal strings, otherwise the sign of
the first difference (the program only tests the result against zero). -/
def strcmp : CStr → CStr → Int
  | [], [] => 0
  | [], _ :: _ => -1
  | _ :: _, [] => 1
  | a :: as, b :: bs =>
    if a = b then strcmp as bs else if a.toNat < b.toNat then -1 else 1

/-- The function `strncmp`: `strcmp` on the first `n` characters. -/
def strncmp (a b : CStr) (n : Nat) : Int := strcmp (a.take n) (b.take n)

/-- The function `strlen`. -/
def strlen (s : CStr) : Int := s.length

/-- The expression `arg[i]` for `i` up to `strlen(arg)`. -/
def char_at (s : CStr) (i : Nat) : Char := s.getD i NUL

/-- The function `strcpy` into a buffer of `cap` bytes: the new contents of the
buffer when source and terminator fit. The source puts no bound on the length;
when they do not fit the copy runs past the buffer into whatever follows it,
which the embedding does not follow: it gives `none`. -/
def strcpy (cap : Nat) (src : CStr) : Option CStr :=
  if src.length < cap then some src else none

/-! ## The argument parser -/

/-- Control flow inside `parse_cmdline`: fall through to the next statement,
execute a `return`, or undefined behaviour. -/
inductive Flow (α : Type)
  | next (a : α)
  | ret (code : Int) (ev : Event) (cfg : RunConfig)
  | undefined
  deriving DecidableEq, Repr

/-- Sequencing of statements. -/
def Flow.bind {α β : Type} (x : Flow α) (f : α → Flow β) : Flow β :=
  match x with
  | .next a => f a
  | .ret code ev cfg => .ret code ev cfg
  | .undefined => .undefined

/-- The globals together with the local `recog` of the loop body. -/
structure LoopVars where
  cfg : RunConfig
  recog : Int
  deriving DecidableEq, Repr

/-- The macro `xerror(msg)` (lines 183-186). -/
def xerror {α : Type} (msg : String) (cfg : RunConfig) : Flow α :=
  .ret (-1) (.xerror msg) cfg

/-- Lines 201-204. -/
def rule_help (arg : CStr) (s : LoopVars) : Flow LoopVars :=
  if strcmp arg "-h".toList = 0 ∨ strcmp arg "--help".toList = 0 then
    .ret 0 .usage_text s.cfg
  else .next s

/-- Lines 205-218. -/
def rule_load (arg : CStr) (s : LoopVars) : Flow LoopVars :=
  if strncmp arg "--load=".toList 7 = 0 then
    if s.cfg.need_input ≠ 0 then
      xerror "Too many `--load' options!" s.cfg
    else if s.cfg.need_output ≠ 0 then
      xerror "Cannot have both `--load' and `--save' options!" s.cfg
    else if strlen arg ≤ 7 then
      xerror "--load: bad file specification!" s.cfg
    else
      match strcpy 256 (arg.drop 7) with
      | some f => .next { cfg := { s.cfg with need_input := 1, raw_data_file := f }, recog := 1 }
      | none => .undefined
  else .next s

/-- Lines 219-232. -/
def rule_save (arg : CStr) (s : LoopVars) : Flow LoopVars :=
  if strncmp arg "--save=".toList 7 = 0 then
    if s.cfg.need_output ≠ 0 then
      xerror "Too many `--save' options!" s.cfg
    else if s.cfg.need_input ≠ 0 then
      xerror "Cannot have both `--load' and `--save' options!" s.cfg
    else if strlen arg ≤ 7 then
      xerror "--save: bad file specification!" s.cfg
    else
      match strcpy 256 (arg.drop 7) with
      | some f => .next { cfg := { s.cfg with need_output := 1, raw_data_file := f }, recog := 1 }
      | none => .undefined
  else .next s

/-- Lines 233-239. -/
def rule_outfile (arg : CStr) (s : LoopVars) : Flow LoopVars :=
  if strncmp arg "--outfile=".toList 10 = 0 then
    if strlen arg ≤ 10 then
      xerror "--output: bad file specification!" s.cfg
    else
      match strcpy 256 (arg.drop 10) with
      | some f => .next { cfg := { s.cfg with out_file := f }, recog := 1 }
      | none => .undefined
  else .next s

/-- Lines 240-243. -/
def rule_report (arg : CStr) (s : LoopVars) : Flow LoopVars :=
  if strcmp arg "--report".toList = 0 ∨ strcmp arg "--all".toList = 0 then
    .next { cfg := { s.cfg with need_report := 1 }, recog := 1 }
  else .next s

/-- Lines 244-247. -/
def rule_clock (arg : CStr) (s : LoopVars) : Flow LoopVars :=
  if strcmp arg "--clock".toList = 0 then
    .next { cfg := { s.cfg with need_clockreport := 1 }, recog := 1 }
  else .next s

/-- Lines 248-252. -/
def rule_clock_rdtsc (arg : CStr) (s : LoopVars) : Flow LoopVars :=
  if strcmp arg "--clock-rdtsc".toList = 0 then
    .next { cfg := { s.cfg with need_clockreport := 1, need_timed_clockreport := 1 },
            recog := 1 }
  else .next s

/-- Lines 253-256. -/
def rule_quiet (arg : CStr) (s : LoopVars) : Flow LoopVars :=
  if strcmp arg "--quiet".toList = 0 then
    .next { cfg := { s.cfg with need_quiet := 1 }, recog := 1 }
  else .next s

/-- Lines 257-260. -/
def rule_verbose (arg : CStr) (s : LoopVars) : Flow LoopVars :=
  if strcmp arg "--verbose".toList = 0 then
    .next { cfg := { s.cfg with verbose_level := s.cfg.verbose_level + 1 }, recog := 1 }
  else .next s

/-- Lines 261-264. -/
def rule_version (arg : CStr) (s : LoopVars) : Flow LoopVars :=
  if strcmp arg "--version".toList = 0 then
    .next { cfg := { s.cfg with need_version := 1 }, recog := 1 }
  else .next s

/-- Lines 265-268. -/
def rule_cpulist (arg : CStr) (s : LoopVars) : Flow LoopVars :=
  if strcmp arg "--cpulist".toList = 0 then
    .next { cfg := { s.cfg with need_cpulist := 1 }, recog := 1 }
  else .next s

/-- The loop `while (arg[num_vs] == 'v') num_vs++` (lines 271-272): `rest` is
the string from index `num_vs` on, the result is the final `num_vs`. -/
def count_vs : CStr → Nat → Nat
  | [], num_vs => num_vs
  | c :: rest, num_vs => if c = 'v' then count_vs rest (num_vs + 1) else num_vs

/-- Lines 269-277. -/
def rule_vs (arg : CStr) (s : LoopVars) : Flow LoopVars :=
  if char_at arg 0 = '-' ∧ char_at arg 1 = 'v' then
    let num_vs := count_vs (arg.drop 1) 1
    if char_at arg num_vs = NUL then
      .next { cfg := { s.cfg with verbose_level := s.cfg.verbose_level + ((num_vs : Int) - 1) },
              recog := 1 }
    else .next s
  else .next s

/-- The loop over `matchtable` (lines 278-286), from row `table` on. -/
def match_loop (arg : CStr) : List OptionEntry → LoopVars → Flow LoopVars
  | [], s => .next s
  | e :: table, s =>
    if strcmp arg e.synopsis = 0 then
      if s.cfg.num_requests ≥ MAX_REQUESTS then
        xerror "Too many requests!" s.cfg
      else
        .next { cfg := { s.cfg with requests := s.cfg.requests ++ [e.sw] }, recog := 1 }
    else match_loop arg table s

/-- Lines 278-286. -/
def rule_table (arg : CStr) (s : LoopVars) : Flow LoopVars :=
  match_loop arg matchtable s

/-- Lines 288-292. -/
def rule_unrecognized (arg : CStr) (s : LoopVars) : Flow RunConfig :=
  if s.recog = 0 then .ret (-1) (.unrecognized_option arg) s.cfg
  else .next s.cfg

/-- The body of the loop over the arguments (lines 199-292) for one `arg`. -/
def parse_arg (arg : CStr) (cfg : RunConfig) : Flow RunConfig :=
  (((((((((((((rule_help arg { cfg := cfg, recog := 0 }).bind
    (rule_load arg)).bind
    (rule_save arg)).bind
    (rule_outfile arg)).bind
    (rule_report arg)).bind
    (rule_clock arg)).bind
    (rule_clock_rdtsc arg)).bind
    (rule_quiet arg)).bind
    (rule_verbose arg)).bind
    (rule_version arg)).bind
    (rule_cpulist arg)).bind
    (rule_vs arg)).bind
    (rule_table arg)).bind
    (rule_unrecognized arg)

/-- The loop `for (i = 1; i < argc; i++)` (lines 198-293) over the remaining
arguments. -/
def parse_loop : List CStr → RunConfig → Flow RunConfig
  | [], cfg => .next cfg
  | arg :: rest, cfg =>
    match parse_arg arg cfg with
    | .next cfg1 => parse_loop rest cfg1
    | .ret code ev cfg1 => .ret code ev cfg1
    | .undefined => .undefined

/-- What a call of `parse_cmdline` leaves behind: the returned value, the
globals, and what was printed. -/
structure ParseResult where
  ret : Int
  cfg : RunConfig
  out : List Event
  deriving DecidableEq, Repr

/-- The function `parse_cmdline` (lines 181-295); `argv` is the whole vector,
`argv[0]` included, and `argc` its length. The result is `none` when a `strcpy`
of the call runs past its buffer, which takes a path of 256 or more
characters. -/
def parse_cmdline (argv : List CStr) (cfg : RunConfig) : Option ParseResult :=
  if argv.length = 1 then
    match strcpy 256 "raw.txt".toList, strcpy 256 "report.txt".toList with
    | some raw, some out =>
      some { ret := 1,
             cfg := { cfg with need_output := 1, raw_data_file := raw, out_file := out,
                               need_report := 1, verbose_level := 1 },
             out := [] }
    | _, _ => none
  else
    match parse_loop (argv.drop 1) cfg with
    | .next cfg1 => some { ret := 1, cfg := cfg1, out := [] }
    | .ret code ev cfg1 => some { ret := code, cfg := cfg1, out := [ev] }
    | .undefined => none

/-! ## Data acquisition and the driver -/

/-- The function `check_need_raw_data` (lines 302-313). -/
def check_need_raw_data (cfg : RunConfig) : Int :=
  if cfg.need_output ≠ 0 ∨ cfg.need_report ≠ 0 then 1
  else if cfg.requests.any (fun q =>
      matchtable.any (fun e => decide (q = e.sw) && decide (e.ident_required ≠ 0))) then 1
  else 0

/-- The loop computing `only_clock_queries` (lines 608-613), from request `i`
on. -/
def only_clock_queries : List output_data_switch → Int
  | [] => 1
  | q :: rest =>
    if q ≠ NEED_CLOCK ∧ q ≠ NEED_CLOCK_RDTSC then 0 else only_clock_queries rest

/-- The results of the library calls the driver branches on. -/
structure Env where
  /-- Whether `fopen(out_file, "wt")` returned a stream. -/
  fopen_ok : Bool
  /-- Result of `cpuid_deserialize_raw_data`. -/
  readres_load : Int
  /-- Result of `cpuid_get_raw_data`. -/
  readres_live : Int
  /-- Result of `cpuid_serialize_raw_data`. -/
  writeres : Int
  /-- Result of `cpu_identify` inside the report. -/
  identify_report : Int
  /-- Result of `cpu_identify` before the queries. -/
  identify_queries : Int
  deriving DecidableEq, Repr

/-- A stretch of `main`: the events it produced and, when it executed a
`return`, the returned value. -/
structure Stage where
  exit : Option Int
  trace : List Event
  deriving DecidableEq, Repr

/-- Run `b` after `a` unless `a` returned. -/
def Stage.andThen (a b : Stage) : Stage :=
  match a.exit with
  | some _ => a
  | none => { exit := b.exit, trace := a.trace ++ b.trace }

/-- Lines 461-465. -/
def stage_setup (cfg : RunConfig) : Stage :=
  { exit := none,
    trace := (if cfg.need_quiet ≠ 0 then [Event.set_warn_function_null] else []) ++
      [Event.set_verbosiness_level cfg.verbose_level] }

/-- Lines 467-478. -/
def stage_redirect (cfg : RunConfig) (env : Env) : Stage :=
  if strcmp cfg.out_file [] ≠ 0 ∧ strcmp cfg.out_file "-".toList ≠ 0 then
    if env.fopen_ok then
      { exit := none, trace := [.fopen_out cfg.out_file, .atexit_close_out] }
    else
      { exit := some (-1),
        trace := [.fopen_out cfg.out_file] ++
          (if cfg.need_quiet = 0 then [Event.cannot_open_out cfg.out_file] else []) }
  else { exit := none, trace := [] }

/-- Lines 480-482. -/
def stage_version (cfg : RunConfig) : Stage :=
  { exit := none, trace := if cfg.need_version ≠ 0 then [.print_lib_version] else [] }

/-- Lines 484-516. -/
def stage_acquire (cfg : RunConfig) (env : Env) : Stage :=
  if cfg.need_input ≠ 0 then
    let stdin := decide (strcmp cfg.raw_data_file "-".toList = 0)
    let call := Event.deserialize_raw_data (if stdin then [] else cfg.raw_data_file)
    if env.readres_load < 0 then
      { exit := some (-1),
        trace := [call] ++
          (if cfg.need_quiet = 0 then
            [Event.cannot_deserialize stdin cfg.raw_data_file, Event.error_detail]
           else []) }
    else { exit := none, trace := [call] }
  else if check_need_raw_data cfg ≠ 0 then
    if env.readres_live < 0 then
      { exit := some (-1),
        trace := [.get_raw_data] ++
          (if cfg.need_quiet = 0 then [Event.cannot_obtain_raw, Event.error_detail] else []) }
    else { exit := none, trace := [.get_raw_data] }
  else { exit := none, trace := [] }

/-- Lines 518-540. -/
def stage_save (cfg : RunConfig) (env : Env) : Stage :=
  if cfg.need_output ≠ 0 then
    let stdout := decide (strcmp cfg.raw_data_file "-".toList = 0)
    let pre := (if cfg.verbose_level ≥ 1 then [Event.writing_raw_dump cfg.raw_data_file] else []) ++
      [Event.serialize_raw_data (if stdout then [] else cfg.raw_data_file)]
    if env.writeres < 0 then
      { exit := some (-1),
        trace := pre ++
          (if cfg.need_quiet = 0 then
            [Event.cannot_serialize stdout cfg.raw_data_file, Event.error_detail]
           else []) }
    else { exit := none, trace := pre }
  else { exit := none, trace := [] }

/-- Lines 541-600. -/
def stage_report (cfg : RunConfig) (env : Env) : Stage :=
  if cfg.need_report ≠ 0 then
    { exit := none,
      trace := (if cfg.verbose_level ≥ 1 then [Event.writing_report cfg.out_file] else []) ++
        [Event.report_cpuid_present, Event.identify] ++
        (if env.identify_report < 0 then [Event.report_identify_error] else []) ++
        [Event.report_body] ++
        (if cfg.need_clockreport ≠ 0 then
          [Event.report_clock (decide (cfg.need_timed_clockreport ≠ 0))]
         else []) }
  else { exit := none, trace := [] }

/-- Lines 608-626. -/
def stage_queries (cfg : RunConfig) (env : Env) : Stage :=
  if (cfg.need_report = 0 ∨ only_clock_queries cfg.requests = 0) ∧ cfg.num_requests > 0 then
    if check_need_raw_data cfg ≠ 0 then
      if env.identify_queries < 0 then
        { exit := some (-1),
          trace := [.identify] ++
            (if cfg.need_quiet = 0 then [Event.query_identify_error] else []) }
      else { exit := none, trace := [.identify] ++ cfg.requests.map Event.print_info }
    else { exit := none, trace := cfg.requests.map Event.print_info }
  else { exit := none, trace := [] }

/-- Lines 627-631. -/
def stage_cpulist (cfg : RunConfig) : Stage :=
  { exit := some 0, trace := if cfg.need_cpulist ≠ 0 then [.print_cpulist] else [] }

/-- The part of `main` after the call of `parse_cmdline` succeeded
(lines 461-631), run on the globals `cfg`. -/
def run_driver (cfg : RunConfig) (env : Env) : Stage :=
  (((((((stage_setup cfg).andThen
    (stage_redirect cfg env)).andThen
    (stage_version cfg)).andThen
    (stage_acquire cfg env)).andThen
    (stage_save cfg env)).andThen
    (stage_report cfg env)).andThen
    (stage_queries cfg env)).andThen
    (stage_cpulist cfg)

/-- The function `main` (lines 450-632), started with the globals at their
initial values: the exit status and everything written and called, or `none`
when parsing runs into undefined behaviour. -/
def main (argv : List CStr) (env : Env) : Option Stage :=
  match parse_cmdline argv initial_config with
  | none => none
  | some r =>
    if r.ret ≠ 1 then some { exit := some r.ret, trace := r.out }
    else some ((Stage.mk none r.out).andThen (run_driver r.cfg env))

/-! ## The query formatter -/

/-- What an arm of the `switch` in `print_info` prints (lines 321-422): the
result of a library call, or a member of the decoded `data`. -/
inductive InfoSource
  /-- The result of `cpuid_present()`. -/
  | cpuid_present
  /-- The member `data->name`. -/
  | data_field (name : String)
  /-- The names of the set entries of `data->flags`. -/
  | data_flags
  /-- The result of `cpu_clock()`. -/
  | cpu_clock
  /-- The result of `cpu_clock_by_os()`. -/
  | cpu_clock_by_os
  /-- The result of `cpu_clock_measure(400, 1)`. -/
  | cpu_clock_measure
  /-- The register read through the MSR driver, or the driver's error. -/
  | rdmsr
  deriving DecidableEq, Repr

/-- The function `print_info` (lines 315-423): what is printed for `query`. -/
def print_info : output_data_switch → InfoSource
  | NEED_CPUID_PRESENT => .cpuid_present
  | NEED_VENDOR_STR => .data_field "vendor_str"
  | NEED_VENDOR_ID => .data_field "vendor"
  | NEED_BRAND_STRING => .data_field "brand_str"
  | NEED_FAMILY => .data_field "family"
  | NEED_MODEL => .data_field "model"
  | NEED_STEPPING => .data_field "stepping"
  | NEED_EXT_FAMILY => .data_field "ext_family"
  | NEED_EXT_MODEL => .data_field "ext_model"
  | NEED_NUM_CORES => .data_field "num_cores"
  | NEED_NUM_LOGICAL => .data_field "num_logical_cpus"
  | NEED_TOTAL_CPUS => .data_field "total_logical_cpus"
  | NEED_L1D_SIZE => .data_field "l1_data_cache"
  | NEED_L1I_SIZE => .data_field "l1_instruction_cache"
  | NEED_L2_SIZE => .data_field "l2_cache"
  | NEED_L3_SIZE => .data_field "l3_cache"
  | NEED_L1D_ASSOC => .data_field "l1_assoc"
  | NEED_L2_ASSOC => .data_field "l2_assoc"
  | NEED_L3_ASSOC => .data_field "l3_assoc"
  | NEED_L1D_CACHELINE => .data_field "l1_cacheline"
  | NEED_L2_CACHELINE => .data_field "l2_cacheline"
  | NEED_L3_CACHELINE => .data_field "l3_cacheline"
  | NEED_CODENAME => .data_field "cpu_codename"
  | NEED_FEATURES => .data_flags
  | NEED_CLOCK => .cpu_clock
  | NEED_CLOCK_OS => .cpu_clock_by_os
  | NEED_CLOCK_RDTSC => .cpu_clock_measure
  | NEED_RDMSR => .rdmsr

/-! ## Notions used to state the properties -/

/-- The queries answered in a trace, in order. -/
def answered_queries (trace : List Event) : List output_data_switch :=
  trace.filterMap (fun ev => match ev with | .print_info q => some q | _ => none)

/-- The query kind the option table gives to an argument: the `sw` of the
first row whose synopsis is the argument. -/
def table_kind (arg : CStr) : Option output_data_switch :=
  (matchtable.find? (fun e => decide (strcmp arg e.synopsis = 0))).map (fun e => e.sw)

/-- One of the twelve rules that precede the table lookup (lines 201-277) takes
the loop variables `s` to `s1`. -/
def flag_step (arg : CStr) (s s1 : LoopVars) : Prop :=
  rule_help arg s = .next s1 ∨ rule_load arg s = .next s1 ∨ rule_save arg s = .next s1 ∨
  rule_outfile arg s = .next s1 ∨ rule_report arg s = .next s1 ∨
  rule_clock arg s = .next s1 ∨ rule_clock_rdtsc arg s = .next s1 ∨
  rule_quiet arg s = .next s1 ∨ rule_verbose arg s = .next s1 ∨
  rule_version arg s = .next s1 ∨ rule_cpulist arg s = .next s1 ∨ rule_vs arg s = .next s1

/-- The input and output options are not both set. -/
def load_save_exclusive (cfg : RunConfig) : Prop :=
  ¬ (cfg.need_input ≠ 0 ∧ cfg.need_output ≠ 0)

/-- A `return` inside the loop body is either the help exit or an error exit. -/
def Flow.stops_properly {α : Type} (arg : CStr) : Flow α → Prop
  | .ret code ev _ =>
    (code = 0 ∧ ev = .usage_text ∧ (arg = "-h".toList ∨ arg = "--help".toList)) ∨
    (code = -1 ∧ ev ≠ .usage_text)
  | _ => True

/-- No rule of the loop body accepts `arg`: every condition that sets `recog`
(and the help test) is false for it. -/
def matches_no_rule (arg : CStr) : Prop :=
  ¬ (strcmp arg "-h".toList = 0 ∨ strcmp arg "--help".toList = 0) ∧
  strncmp arg "--load=".toList 7 ≠ 0 ∧
  strncmp arg "--save=".toList 7 ≠ 0 ∧
  strncmp arg "--outfile=".toList 10 ≠ 0 ∧
  ¬ (strcmp arg "--report".toList = 0 ∨ strcmp arg "--all".toList = 0) ∧
  strcmp arg "--clock".toList ≠ 0 ∧
  strcmp arg "--clock-rdtsc".toList ≠ 0 ∧
  strcmp arg "--quiet".toList ≠ 0 ∧
  strcmp arg "--verbose".toList ≠ 0 ∧
  strcmp arg "--version".toList ≠ 0 ∧
  strcmp arg "--cpulist".toList ≠ 0 ∧
  ¬ ((char_at arg 0 = '-' ∧ char_at arg 1 = 'v') ∧
      char_at arg (count_vs (arg.drop 1) 1) = NUL) ∧
  table_kind arg = none

instance (arg : CStr) : Decidable (matches_no_rule arg) := by
  unfold matches_no_rule
  infer_instance

/-- A token of the form `-v`, `-vv`, `-vvv`, ... or the token `--verbose`. -/
def is_verbose_token (tok : CStr) : Prop :=
  tok = "--verbose".toList ∨ ∃ n, 1 ≤ n ∧ tok = '-' :: List.replicate n 'v'

/-- By how much a verbosity token raises `verbose_level`: by one for
`--verbose`, by the number of its `v` characters for `-v`, `-vv`, ... -/
def verbosity_raise (tok : CStr) : Int :=
  if tok = "--verbose".toList then 1 else (tok.length : Int) - 1

/-- What the flag rules do to the globals for an argument that is a synopsis of
the option table: `--clock` and `--clock-rdtsc` are also flags (lines 244-252). -/
def clock_flags (arg : CStr) (c : RunConfig) : RunConfig :=
  if arg = "--clock".toList then { c with need_clockreport := 1 }
  else if arg = "--clock-rdtsc".toList then
    { c with need_clockreport := 1, need_timed_clockreport := 1 }
  else c

/-- One rule alone: the rule, then the test of `recog` that ends the loop body. -/
def apply_rule (rule : CStr → LoopVars → Flow LoopVars) (arg : CStr) (c : RunConfig) :
    Flow RunConfig :=
  (rule arg { cfg := c, recog := 0 }).bind (rule_unrecognized arg)

/-- The loop body as the specification words it, "first match wins": the rules
are tried in the order of the source and only the first one whose condition
holds is applied; an argument that none accepts is unrecognized. -/
def parse_arg_first_match (arg : CStr) (c : RunConfig) : Flow RunConfig :=
  if strcmp arg "-h".toList = 0 ∨ strcmp arg "--help".toList = 0 then apply_rule rule_help arg c
  else if strncmp arg "--load=".toList 7 = 0 then apply_rule rule_load arg c
  else if strncmp arg "--save=".toList 7 = 0 then apply_rule rule_save arg c
  else if strncmp arg "--outfile=".toList 10 = 0 then apply_rule rule_outfile arg c
  else if strcmp arg "--report".toList = 0 ∨ strcmp arg "--all".toList = 0 then
    apply_rule rule_report arg c
  else if strcmp arg "--clock".toList = 0 then apply_rule rule_clock arg c
  else if strcmp arg "--clock-rdtsc".toList = 0 then apply_rule rule_clock_rdtsc arg c
  else if strcmp arg "--quiet".toList = 0 then apply_rule rule_quiet arg c
  else if strcmp arg "--verbose".toList = 0 then apply_rule rule_verbose arg c
  else if strcmp arg "--version".toList = 0 then apply_rule rule_version arg c
  else if strcmp arg "--cpulist".toList = 0 then apply_rule rule_cpulist arg c
  else if (char_at arg 0 = '-' ∧ char_at arg 1 = 'v') ∧
      char_at arg (count_vs (arg.drop 1) 1) = NUL then apply_rule rule_vs arg c
  else apply_rule rule_table arg c

/-- Whether the arm of `print_info` for `query` reads the decoded `data`. -/
def reads_decoded (query : output_data_switch) : Bool :=
  match print_info query with
  | .data_field _ => true
  | .data_flags => true
  | _ => false

/-- The events that read the raw snapshot `raw` or what was decoded from it:
serializing it, `cpu_identify`, the report block, a query answered from `data`. -/
def uses_raw (ev : Event) : Bool :=
  match ev with
  | .serialize_raw_data _ => true
  | .identify => true
  | .report_body => true
  | .print_info q => reads_decoded q
  | _ => false

/-- The events that read the decoded `data`: the report block and a query
answered from `data`. -/
def uses_decoded (ev : Event) : Bool :=
  match ev with
  | .report_body => true
  | .print_info q => reads_decoded q
  | _ => false

/-- The events that fill `raw`: a call of `cpuid_deserialize_raw_data` or of
`cpuid_get_raw_data` that did not fail. -/
def acquires (env : Env) (ev : Event) : Bool :=
  match ev with
  | .deserialize_raw_data _ => decide (0 ≤ env.readres_load)
  | .get_raw_data => decide (0 ≤ env.readres_live)
  | _ => false

/-- The event of a call of `cpu_identify`. -/
def is_identify (ev : Event) : Bool :=
  match ev with
  | .identify => true
  | _ => false

/-- Scan of a trace: every event that `needs` something comes after an event
that `provides` it; `have_it` tells whether it was provided before the trace. -/
def guarded (provides needs : Event → Bool) : Bool → List Event → Bool
  | _, [] => true
  | have_it, ev :: rest =>
    (!needs ev || have_it) && guarded provides needs (have_it || provides ev) rest

/-- The path that `arg` gives to `--load=`, `--save=` or `--outfile=`, if it
gives one, fits the 256-byte buffer it is copied into (at most 255
characters and the terminator). -/
def path_fits (arg : CStr) : Prop :=
  (strncmp arg "--load=".toList 7 = 0 → (arg.drop 7).length < 256) ∧
  (strncmp arg "--save=".toList 7 = 0 → (arg.drop 7).length < 256) ∧
  (strncmp arg "--outfile=".toList 10 = 0 → (arg.drop 10).length < 256)

instance (arg : CStr) : Decidable (path_fits arg) := by
  unfold path_fits
  infer_instance

/-- One of the options without a value that cannot fail: `--report`, `--all`,
`--quiet`, `--verbose`, `--version`, `--cpulist`. -/
def plain_flag (arg : CStr) : Prop :=
  arg ∈ ["--report".toList, "--all".toList, "--quiet".toList, "--verbose".toList,
    "--version".toList, "--cpulist".toList]

instance (arg : CStr) : Decidable (plain_flag arg) := by
  unfold plain_flag
  infer_instance

/-- No library call that the driver checks fails. -/
def no_failure (env : Env) : Prop :=
  env.fopen_ok = true ∧ 0 ≤ env.readres_load ∧ 0 ≤ env.readres_live ∧ 0 ≤ env.writeres ∧
  0 ≤ env.identify_queries

instance (env : Env) : Decidable (no_failure env) := by
  unfold no_failure
  infer_instance

/-- An `--outfile=` option with a path of 257 characters: 256 times `x` and the
character with code 1. -/
def overlong_outfile : CStr :=
  "--outfile=".toList ++ List.replicate 256 'x' ++ [Char.ofNat 1]

/-! ## Sample runs -/

/-- What `parse_cmdline` leaves for `cpuid_tool --save=r --report`. -/
def save_report_result : ParseResult :=
  { ret := 1, out := [],
    cfg := { initial_config with
             need_output := 1, need_report := 1, raw_data_file := "r".toList } }

/-- What `parse_cmdline` leaves when called with no argument. -/
def default_result : ParseResult :=
  { ret := 1, out := [],
    cfg := { initial_config with
             need_output := 1, raw_data_file := "raw.txt".toList,
             out_file := "report.txt".toList, need_report := 1, verbose_level := 1 } }

/-- The command line that `usage()` documents as the default (line 178). -/
def default_args : List CStr :=
  ["--save=raw.txt".toList, "--outfile=report.txt".toList, "--report".toList,
   "--verbose".toList]

/-- A library environment in which every call succeeds. -/
def all_ok : Env :=
  { fopen_ok := true, readres_load := 0, readres_live := 0, writeres := 0,
    identify_report := 0, identify_queries := 0 }

/-- The globals after `cpuid_tool --report --clock-os`. -/
def report_clock_os_config : RunConfig :=
  { initial_config with need_report := 1, requests := [NEED_CLOCK_OS] }

/-- The globals after `cpuid_tool --report --clock --clock-rdtsc`. -/
def report_clock_config : RunConfig :=
  { initial_config with
    need_report := 1, need_clockreport := 1, need_timed_clockreport := 1,
    requests := [NEED_CLOCK, NEED_CLOCK_RDTSC] }

/-- The globals after `cpuid_tool --cpuid`. -/
def cpuid_only_config : RunConfig :=
  { initial_config with requests := [NEED_CPUID_PRESENT] }

/-- What `parse_cmdline` leaves for `cpuid_tool --load=f --report --vendorstr`. -/
def load_report_vendor_result : ParseResult :=
  { ret := 1, out := [],
    cfg := { initial_config with
             need_input := 1, raw_data_file := "f".toList, need_report := 1,
             requests := [NEED_VENDOR_STR] } }

/-- The command line `cpuid_tool --quiet --bogus --report`. -/
def bogus_argv : List CStr :=
  ["cpuid_tool".toList, "--quiet".toList, "--bogus".toList, "--report".toList]

/-- What `parse_cmdline` leaves for `cpuid_tool --report --clock`. -/
def report_clock_result : ParseResult :=
  { ret := 1, out := [],
    cfg := { initial_config with
             need_report := 1, need_clockreport := 1, requests := [NEED_CLOCK] } }

/-- What `parse_cmdline` leaves for `cpuid_tool --report --family --cache`. -/
def report_family_cache_result : ParseResult :=
  { ret := 1, out := [],
    cfg := { initial_config with need_report := 1, requests := [NEED_FAMILY, NEED_L2_SIZE] } }

/-- The command line `cpuid_tool --save=a --outfile=P` with the path `P` of
`overlong_outfile`. -/
def overlong_outfile_argv : List CStr :=
  ["cpuid_tool".toList, "--save=a".toList, overlong_outfile]

/-- The globals after the argument `--save=a`. -/
def save_a_config : RunConfig :=
  { initial_config with need_output := 1, raw_data_file := "a".toList }

/-! ## Basic facts about the string functions and the control flow -/

theorem strcmp_eq_zero_iff (a b : CStr) : strcmp a b = 0 ↔ a = b := by
  induction a generalizing b with
  | nil => cases b <;> simp [strcmp]
  | cons x xs ih =>
    cases b with
    | nil => simp [strcmp]
    | cons y ys =>
      simp only [strcmp]
      by_cases h : x = y
      · simp [h, ih]
      · simp only [h, if_false, List.cons.injEq, false_and, iff_false]
        split <;> decide

theorem strncmp_eq_zero_iff (a b : CStr) (n : Nat) :
    strncmp a b n = 0 ↔ a.take n = b.take n := by
  simp [strncmp, strcmp_eq_zero_iff]

/-- An argument starts with the literal `lit` exactly when `strncmp` over the
length of `lit` finds no difference. -/
theorem strncmp_lit_iff (arg lit : CStr) :
    strncmp arg lit lit.length = 0 ↔ lit <+: arg := by
  rw [strncmp_eq_zero_iff, List.take_length, List.prefix_iff_eq_take, eq_comm]

@[simp] theorem Flow.bind_next {α β : Type} (a : α) (f : α → Flow β) :
    (Flow.next a).bind f = f a := rfl

@[simp] theorem Flow.bind_ret {α β : Type} (code : Int) (ev : Event) (cfg : RunConfig)
    (f : α → Flow β) : (Flow.ret code ev cfg : Flow α).bind f = Flow.ret code ev cfg := rfl

@[simp] theorem Flow.bind_undefined {α β : Type} (f : α → Flow β) :
    (Flow.undefined : Flow α).bind f = Flow.undefined := rfl

theorem Flow.bind_eq_next {α β : Type} {x : Flow α} {f : α → Flow β} {b : β}
    (h : x.bind f = .next b) : ∃ a, x = .next a ∧ f a = .next b := by
  cases x with
  | next a => exact ⟨a, rfl, h⟩
  | ret code ev cfg => cases h
  | undefined => cases h

/-! ## The loop body, rule by rule -/

/-- When the loop body falls through to the next argument, the twelve flag
rules were passed one after the other, then the table lookup, and the globals
are those the table lookup left. -/
theorem parse_arg_next (R : RunConfig → RunConfig → Prop) (arg : CStr)
    (htrans : ∀ a b c, R a b → R b c → R a c)
    (hflag : ∀ s s1, flag_step arg s s1 → R s.cfg s1.cfg)
    (c c1 : RunConfig) (h : parse_arg arg c = .next c1) :
    ∃ s12 s13, R c s12.cfg ∧ rule_table arg s12 = .next s13 ∧ s13.cfg = c1 := by
  unfold parse_arg at h
  obtain ⟨s13, h, h14⟩ := Flow.bind_eq_next h
  obtain ⟨s12, h, h13⟩ := Flow.bind_eq_next h
  obtain ⟨s11, h, h12⟩ := Flow.bind_eq_next h
  obtain ⟨s10, h, h11⟩ := Flow.bind_eq_next h
  obtain ⟨s9, h, h10⟩ := Flow.bind_eq_next h
  obtain ⟨s8, h, h9⟩ := Flow.bind_eq_next h
  obtain ⟨s7, h, h8⟩ := Flow.bind_eq_next h
  obtain ⟨s6, h, h7⟩ := Flow.bind_eq_next h
  obtain ⟨s5, h, h6⟩ := Flow.bind_eq_next h
  obtain ⟨s4, h, h5⟩ := Flow.bind_eq_next h
  obtain ⟨s3, h, h4⟩ := Flow.bind_eq_next h
  obtain ⟨s2, h, h3⟩ := Flow.bind_eq_next h
  obtain ⟨s1, h1, h2⟩ := Flow.bind_eq_next h
  have e14 : s13.cfg = c1 := by
    unfold rule_unrecognized at h14
    split at h14
    · cases h14
    · injection h14
  have r1 := hflag _ _ (Or.inl h1)
  have r2 := hflag _ _ (Or.inr (Or.inl h2))
  have r3 := hflag _ _ (Or.inr (Or.inr (Or.inl h3)))
  have r4 := hflag _ _ (Or.inr (Or.inr (Or.inr (Or.inl h4))))
  have r5 := hflag _ _ (Or.inr (Or.inr (Or.inr (Or.inr (Or.inl h5)))))
  have r6 := hflag _ _ (Or.inr (Or.inr (Or.inr (Or.inr (Or.inr (Or.inl h6))))))
  have r7 := hflag _ _ (Or.inr (Or.inr (Or.inr (Or.inr (Or.inr (Or.inr (Or.inl h7)))))))
  have r8 := hflag _ _
    (Or.inr (Or.inr (Or.inr (Or.inr (Or.inr (Or.inr (Or.inr (Or.inl h8))))))))
  have r9 := hflag _ _
    (Or.inr (Or.inr (Or.inr (Or.inr (Or.inr (Or.inr (Or.inr (Or.inr (Or.inl h9)))))))))
  have r10 := hflag _ _
    (Or.inr (Or.inr (Or.inr (Or.inr (Or.inr (Or.inr (Or.inr (Or.inr (Or.inr
      (Or.inl h10))))))))))
  have r11 := hflag _ _
    (Or.inr (Or.inr (Or.inr (Or.inr (Or.inr (Or.inr (Or.inr (Or.inr (Or.inr
      (Or.inr (Or.inl h11)))))))))))
  have r12 := hflag _ _
    (Or.inr (Or.inr (Or.inr (Or.inr (Or.inr (Or.inr (Or.inr (Or.inr (Or.inr
      (Or.inr (Or.inr h12)))))))))))
  exact ⟨s12, s13, htrans _ _ _ (htrans _ _ _ (htrans _ _ _ (htrans _ _ _ (htrans _ _ _
    (htrans _ _ _ (htrans _ _ _ (htrans _ _ _ (htrans _ _ _ (htrans _ _ _ (htrans _ _ _
    r1 r2) r3) r4) r5) r6) r7) r8) r9) r10) r11) r12, h13, e14⟩

/-- What a flag rule can do to the globals. -/
theorem flag_step_cases {arg : CStr} {s s1 : LoopVars} (h : flag_step arg s s1) :
    s1.cfg = s.cfg ∨
    (∃ f, s.cfg.need_input = 0 ∧ s.cfg.need_output = 0 ∧
      s1.cfg = { s.cfg with need_input := 1, raw_data_file := f }) ∨
    (∃ f, s.cfg.need_input = 0 ∧ s.cfg.need_output = 0 ∧
      s1.cfg = { s.cfg with need_output := 1, raw_data_file := f }) ∨
    (∃ f, s1.cfg = { s.cfg with out_file := f }) ∨
    s1.cfg = { s.cfg with need_report := 1 } ∨
    s1.cfg = { s.cfg with need_clockreport := 1 } ∨
    s1.cfg = { s.cfg with need_clockreport := 1, need_timed_clockreport := 1 } ∨
    s1.cfg = { s.cfg with need_quiet := 1 } ∨
    (∃ n, s1.cfg = { s.cfg with verbose_level := n }) ∨
    s1.cfg = { s.cfg with need_version := 1 } ∨
    s1.cfg = { s.cfg with need_cpulist := 1 } := by
  rcases h with h | h | h | h | h | h | h | h | h | h | h | h
  · unfold rule_help at h; split at h
    · cases h
    · injection h with h; subst h; exact Or.inl rfl
  · unfold rule_load xerror at h
    split at h
    · split at h; · cases h
      split at h; · cases h
      split at h; · cases h
      split at h
      · injection h with h; subst h
        refine Or.inr (Or.inl ⟨_, ?_, ?_, rfl⟩) <;> simp_all
      · cases h
    · injection h with h; subst h; exact Or.inl rfl
  · unfold rule_save xerror at h
    split at h
    · split at h; · cases h
      split at h; · cases h
      split at h; · cases h
      split at h
      · injection h with h; subst h
        refine Or.inr (Or.inr (Or.inl ⟨_, ?_, ?_, rfl⟩)) <;> simp_all
      · cases h
    · injection h with h; subst h; exact Or.inl rfl
  · unfold rule_outfile xerror at h
    split at h
    · split at h; · cases h
      split at h
      · injection h with h; subst h
        exact Or.inr (Or.inr (Or.inr (Or.inl ⟨_, rfl⟩)))
      · cases h
    · injection h with h; subst h; exact Or.inl rfl
  · unfold rule_report at h; split at h <;> injection h with h <;> subst h
    · exact Or.inr (Or.inr (Or.inr (Or.inr (Or.inl rfl))))
    · exact Or.inl rfl
  · unfold rule_clock at h; split at h <;> injection h with h <;> subst h
    · exact Or.inr (Or.inr (Or.inr (Or.inr (Or.inr (Or.inl rfl)))))
    · exact Or.inl rfl
  · unfold rule_clock_rdtsc at h; split at h <;> injection h with h <;> subst h
    · exact Or.inr (Or.inr (Or.inr (Or.inr (Or.inr (Or.inr (Or.inl rfl))))))
    · exact Or.inl rfl
  · unfold rule_quiet at h; split at h <;> injection h with h <;> subst h
    · exact Or.inr (Or.inr (Or.inr (Or.inr (Or.inr (Or.inr (Or.inr (Or.inl rfl)))))))
    · exact Or.inl rfl
  · unfold rule_verbose at h; split at h <;> injection h with h <;> subst h
    · exact Or.inr (Or.inr (Or.inr (Or.inr (Or.inr (Or.inr (Or.inr (Or.inr
        (Or.inl ⟨_, rfl⟩))))))))
    · exact Or.inl rfl
  · unfold rule_version at h; split at h <;> injection h with h <;> subst h
    · exact Or.inr (Or.inr (Or.inr (Or.inr (Or.inr (Or.inr (Or.inr (Or.inr
        (Or.inr (Or.inl rfl)))))))))
    · exact Or.inl rfl
  · unfold rule_cpulist at h; split at h <;> injection h with h <;> subst h
    · exact Or.inr (Or.inr (Or.inr (Or.inr (Or.inr (Or.inr (Or.inr (Or.inr
        (Or.inr (Or.inr rfl)))))))))
    · exact Or.inl rfl
  · unfold rule_vs at h
    split at h
    · simp only at h
      split at h <;> injection h with h <;> subst h
      · exact Or.inr (Or.inr (Or.inr (Or.inr (Or.inr (Or.inr (Or.inr (Or.inr
          (Or.inl ⟨_, rfl⟩))))))))
      · exact Or.inl rfl
    · injection h with h; subst h; exact Or.inl rfl

/-- The table lookup appends the kind of the first row whose synopsis is the
argument, and nothing when there is no such row. -/
theorem match_loop_next (arg : CStr) (table : List OptionEntry) (s s1 : LoopVars)
    (h : match_loop arg table s = .next s1) :
    s1.cfg = { s.cfg with requests := s.cfg.requests ++
      ((table.find? (fun e => decide (strcmp arg e.synopsis = 0))).map
        (fun e => e.sw)).toList } := by
  induction table with
  | nil =>
    simp only [match_loop] at h
    injection h with h; subst h; simp
  | cons e rest ih =>
    simp only [match_loop, xerror] at h
    by_cases he : strcmp arg e.synopsis = 0
    · simp only [he, if_true] at h
      split at h
      · cases h
      · injection h with h; subst h
        simp [List.find?, he]
    · simp only [he, if_false] at h
      simp only [List.find?, he, decide_False]
      exact ih h

theorem rule_table_next (arg : CStr) (s s1 : LoopVars) (h : rule_table arg s = .next s1) :
    s1.cfg = { s.cfg with requests := s.cfg.requests ++ (table_kind arg).toList } :=
  match_loop_next arg matchtable s s1 h

theorem parse_arg_exclusive (arg : CStr) (c c1 : RunConfig)
    (h : parse_arg arg c = .next c1) (hc : load_save_exclusive c) :
    load_save_exclusive c1 := by
  obtain ⟨s12, s13, hr, ht, rfl⟩ := parse_arg_next
    (fun a b => load_save_exclusive a → load_save_exclusive b) arg
    (fun _ _ _ h1 h2 h => h2 (h1 h))
    (fun s s1 hs => by
      rcases flag_step_cases hs with h | ⟨f, h1, h2, h⟩ | ⟨f, h1, h2, h⟩ | ⟨f, h⟩ | h | h | h |
        h | ⟨n, h⟩ | h | h <;> rw [h] <;> simp_all [load_save_exclusive]) c _ h
  have := hr hc
  rw [rule_table_next arg s12 s13 ht]
  simpa [load_save_exclusive] using this

theorem parse_arg_requests (arg : CStr) (c c1 : RunConfig)
    (h : parse_arg arg c = .next c1) :
    c1.requests = c.requests ++ (table_kind arg).toList := by
  obtain ⟨s12, s13, hr, ht, rfl⟩ := parse_arg_next
    (fun a b => b.requests = a.requests) arg
    (fun _ _ _ h1 h2 => h2.trans h1)
    (fun s s1 hs => by
      rcases flag_step_cases hs with h | ⟨f, h1, h2, h⟩ | ⟨f, h1, h2, h⟩ | ⟨f, h⟩ | h | h | h |
        h | ⟨n, h⟩ | h | h <;> rw [h]) c _ h
  rw [rule_table_next arg s12 s13 ht]
  simp [hr]

theorem strlen_le_seven (a b c d e f g : Char) (rest : CStr) :
    strlen (a :: b :: c :: d :: e :: f :: g :: rest) ≤ 7 ↔ rest = [] := by
  cases rest with
  | nil => simp [strlen]
  | cons x xs => simp [strlen]; omega

theorem strlen_le_ten (a b c d e f g h i j : Char) (rest : CStr) :
    strlen (a :: b :: c :: d :: e :: f :: g :: h :: i :: j :: rest) ≤ 10 ↔ rest = [] := by
  cases rest with
  | nil => simp [strlen]
  | cons x xs => simp [strlen]; omega

theorem parse_arg_load (rest : CStr) (c : RunConfig) :
    parse_arg ("--load=".toList ++ rest) c =
      if c.need_input ≠ 0 then .ret (-1) (.xerror "Too many `--load' options!") c
      else if c.need_output ≠ 0 then
        .ret (-1) (.xerror "Cannot have both `--load' and `--save' options!") c
      else if rest = [] then .ret (-1) (.xerror "--load: bad file specification!") c
      else if rest.length < 256 then .next { c with need_input := 1, raw_data_file := rest }
      else .undefined := by
  by_cases h1 : c.need_input = 0 <;> by_cases h2 : c.need_output = 0 <;>
    by_cases h3 : rest = [] <;> by_cases h4 : rest.length < 256 <;>
    simp [parse_arg, rule_help, rule_load, rule_save, rule_outfile, rule_report, rule_clock,
    rule_clock_rdtsc, rule_quiet, rule_verbose, rule_version, rule_cpulist, rule_vs, rule_table,
    rule_unrecognized, matchtable, match_loop, xerror, strcmp_eq_zero_iff, strncmp_eq_zero_iff,
    char_at, strlen_le_seven, strlen_le_ten, strcpy, h1, h2, h3, h4]

theorem parse_arg_save (rest : CStr) (c : RunConfig) :
    parse_arg ("--save=".toList ++ rest) c =
      if c.need_output ≠ 0 then .ret (-1) (.xerror "Too many `--save' options!") c
      else if c.need_input ≠ 0 then
        .ret (-1) (.xerror "Cannot have both `--load' and `--save' options!") c
      else if rest = [] then .ret (-1) (.xerror "--save: bad file specification!") c
      else if rest.length < 256 then .next { c with need_output := 1, raw_data_file := rest }
      else .undefined := by
  by_cases h1 : c.need_input = 0 <;> by_cases h2 : c.need_output = 0 <;>
    by_cases h3 : rest = [] <;> by_cases h4 : rest.length < 256 <;>
    simp [parse_arg, rule_help, rule_load, rule_save, rule_outfile, rule_report, rule_clock,
    rule_clock_rdtsc, rule_quiet, rule_verbose, rule_version, rule_cpulist, rule_vs, rule_table,
    rule_unrecognized, matchtable, match_loop, xerror, strcmp_eq_zero_iff, strncmp_eq_zero_iff,
    char_at, strlen_le_seven, strlen_le_ten, strcpy, h1, h2, h3, h4]

theorem Flow.stops_properly_bind {α β : Type} (arg : CStr) (x : Flow α) (f : α → Flow β)
    (hx : x.stops_properly arg) (hf : ∀ a, (f a).stops_properly arg) :
    (x.bind f).stops_properly arg := by
  cases x with
  | next a => exact hf a
  | ret code ev cfg => exact hx
  | undefined => trivial

theorem match_loop_stops (arg : CStr) (table : List OptionEntry) (s : LoopVars) :
    (match_loop arg table s).stops_properly arg := by
  induction table with
  | nil => trivial
  | cons e rest ih =>
    simp only [match_loop, xerror]
    split
    · split
      · exact Or.inr ⟨rfl, by simp⟩
      · trivial
    · exact ih

theorem parse_arg_stops (arg : CStr) (c : RunConfig) :
    (parse_arg arg c).stops_properly arg := by
  unfold parse_arg
  refine Flow.stops_properly_bind _ _ _ (Flow.stops_properly_bind _ _ _
    (Flow.stops_properly_bind _ _ _ (Flow.stops_properly_bind _ _ _
    (Flow.stops_properly_bind _ _ _ (Flow.stops_properly_bind _ _ _
    (Flow.stops_properly_bind _ _ _ (Flow.stops_properly_bind _ _ _
    (Flow.stops_properly_bind _ _ _ (Flow.stops_properly_bind _ _ _
    (Flow.stops_properly_bind _ _ _ (Flow.stops_properly_bind _ _ _
    (Flow.stops_properly_bind _ _ _ ?_ ?_) ?_) ?_) ?_) ?_) ?_) ?_) ?_) ?_) ?_) ?_) ?_) ?_
  · unfold rule_help
    split
    · rename_i h
      simp only [strcmp_eq_zero_iff] at h
      exact Or.inl ⟨rfl, rfl, h⟩
    · trivial
  · intro s; unfold rule_load xerror
    repeat' split
    all_goals first | trivial | exact Or.inr ⟨rfl, by simp⟩
  · intro s; unfold rule_save xerror
    repeat' split
    all_goals first | trivial | exact Or.inr ⟨rfl, by simp⟩
  · intro s; unfold rule_outfile xerror
    repeat' split
    all_goals first | trivial | exact Or.inr ⟨rfl, by simp⟩
  · intro s; unfold rule_report; split <;> trivial
  · intro s; unfold rule_clock; split <;> trivial
  · intro s; unfold rule_clock_rdtsc; split <;> trivial
  · intro s; unfold rule_quiet; split <;> trivial
  · intro s; unfold rule_verbose; split <;> trivial
  · intro s; unfold rule_version; split <;> trivial
  · intro s; unfold rule_cpulist; split <;> trivial
  · intro s; unfold rule_vs
    split
    · simp only
      split <;> trivial
    · trivial
  · intro s; exact match_loop_stops arg matchtable s
  · intro s; unfold rule_unrecognized
    split
    · exact Or.inr ⟨rfl, by simp⟩
    · trivial

/-! ## The loop over the arguments -/

theorem parse_loop_cons (arg : CStr) (rest : List CStr) (c : RunConfig) :
    parse_loop (arg :: rest) c =
      match parse_arg arg c with
      | .next c1 => parse_loop rest c1
      | .ret code ev c1 => .ret code ev c1
      | .undefined => .undefined := rfl

theorem parse_loop_cons_next {arg : CStr} {rest : List CStr} {c c2 : RunConfig}
    (h : parse_loop (arg :: rest) c = .next c2) :
    ∃ c1, parse_arg arg c = .next c1 ∧ parse_loop rest c1 = .next c2 := by
  rw [parse_loop_cons] at h
  cases hp : parse_arg arg c with
  | next c1 => rw [hp] at h; exact ⟨c1, rfl, h⟩
  | ret code ev c1 => rw [hp] at h; cases h
  | undefined => rw [hp] at h; cases h

theorem parse_loop_append (xs ys : List CStr) (c : RunConfig) :
    parse_loop (xs ++ ys) c =
      match parse_loop xs c with
      | .next c1 => parse_loop ys c1
      | .ret code ev c1 => .ret code ev c1
      | .undefined => .undefined := by
  induction xs generalizing c with
  | nil => rfl
  | cons x xs ih =>
    rw [List.cons_append, parse_loop_cons, parse_loop_cons]
    cases parse_arg x c with
    | next c1 => exact ih c1
    | ret code ev c1 => rfl
    | undefined => rfl

theorem parse_loop_exclusive (args : List CStr) (c c1 : RunConfig)
    (h : parse_loop args c = .next c1) (hc : load_save_exclusive c) :
    load_save_exclusive c1 := by
  induction args generalizing c with
  | nil => injection h with h; subst h; exact hc
  | cons a rest ih =>
    obtain ⟨c2, h1, h2⟩ := parse_loop_cons_next h
    exact ih c2 h2 (parse_arg_exclusive a c c2 h1 hc)

theorem parse_loop_requests (args : List CStr) (c c1 : RunConfig)
    (h : parse_loop args c = .next c1) :
    c1.requests = c.requests ++ args.filterMap table_kind := by
  induction args generalizing c with
  | nil => injection h with h; subst h; simp
  | cons a rest ih =>
    obtain ⟨c2, h1, h2⟩ := parse_loop_cons_next h
    rw [ih c2 h2, parse_arg_requests a c c2 h1]
    cases hk : table_kind a <;> simp [List.filterMap_cons, hk]

/-- A `return` inside the loop is the help exit, caused by a `-h` or `--help`
among the arguments, or an error exit. -/
theorem parse_loop_ret (args : List CStr) (c c1 : RunConfig) (code : Int) (ev : Event)
    (h : parse_loop args c = .ret code ev c1) :
    (code = 0 ∧ ev = .usage_text ∧ ("-h".toList ∈ args ∨ "--help".toList ∈ args)) ∨
    (code = -1 ∧ ev ≠ .usage_text) := by
  induction args generalizing c with
  | nil => cases h
  | cons a rest ih =>
    rw [parse_loop_cons] at h
    have hs := parse_arg_stops a c
    cases hp : parse_arg a c with
    | next c2 =>
      rw [hp] at h
      rcases ih _ h with ⟨h1, h2, h3⟩ | h1
      · exact Or.inl ⟨h1, h2, by simp only [List.mem_cons]; tauto⟩
      · exact Or.inr h1
    | ret code1 ev1 c2 =>
      rw [hp] at h hs
      injection h with e1 e2 e3
      subst e1 e2 e3
      rcases hs with ⟨h1, h2, h3⟩ | h1
      · refine Or.inl ⟨h1, h2, ?_⟩
        simp only [List.mem_cons]
        rcases h3 with h3 | h3
        · exact Or.inl (Or.inl h3.symm)
        · exact Or.inr (Or.inl h3.symm)
      · exact Or.inr h1
    | undefined => rw [hp] at h; cases h

/-- How `parse_cmdline` on at least one argument follows from the loop. -/
theorem parse_cmdline_cons (prog a : CStr) (rest : List CStr) (c : RunConfig) :
    parse_cmdline (prog :: a :: rest) c =
      match parse_loop (a :: rest) c with
      | .next c1 => some { ret := 1, cfg := c1, out := [] }
      | .ret code ev c1 => some { ret := code, cfg := c1, out := [ev] }
      | .undefined => none := by
  unfold parse_cmdline
  rw [if_neg (by simp)]
  rfl

theorem parse_cmdline_no_arguments (prog : CStr) :
    parse_cmdline [prog] initial_config = some default_result := by
  simp [parse_cmdline, strcpy, default_result]

theorem initial_exclusive : load_save_exclusive initial_config := by
  simp [load_save_exclusive, initial_config]

theorem match_loop_no_match (arg : CStr) (table : List OptionEntry) (s : LoopVars)
    (h : table.find? (fun e => decide (strcmp arg e.synopsis = 0)) = none) :
    match_loop arg table s = .next s := by
  induction table with
  | nil => rfl
  | cons e rest ih =>
    simp only [List.find?_cons] at h
    split at h
    · cases h
    · rename_i he
      simp only [decide_eq_false_iff_not] at he
      simp only [match_loop, he, if_false]
      exact ih h

theorem parse_arg_no_rule (arg : CStr) (c : RunConfig) (h : matches_no_rule arg) :
    parse_arg arg c = .ret (-1) (.unrecognized_option arg) c := by
  obtain ⟨h1, h2, h3, h4, h5, h6, h7, h8, h9, h10, h11, h12, h13⟩ := h
  have ht : ∀ s, rule_table arg s = .next s := fun s =>
    match_loop_no_match arg matchtable s (by
      simpa [table_kind] using h13)
  have hv : ∀ s, rule_vs arg s = .next s := by
    intro s
    unfold rule_vs
    split
    · rename_i hc
      simp only
      rw [if_neg (fun hn => h12 ⟨hc, hn⟩)]
    · rfl
  simp only [parse_arg, rule_help, rule_load, rule_save, rule_outfile, rule_report, rule_clock,
    rule_clock_rdtsc, rule_quiet, rule_verbose, rule_version, rule_cpulist, rule_unrecognized,
    h1, h2, h3, h4, h5, h6, h7, h8, h9, h10, h11, ht, hv, if_false, if_true, Flow.bind_next]

theorem count_vs_replicate (n k : Nat) : count_vs (List.replicate n 'v') k = k + n := by
  induction n generalizing k with
  | zero => rfl
  | succ n ih => simp [List.replicate_succ, count_vs, ih]; omega

theorem parse_arg_verbose (c : RunConfig) :
    parse_arg "--verbose".toList c =
      .next { c with verbose_level := c.verbose_level + 1 } := by
  simp [parse_arg, rule_help, rule_load, rule_save, rule_outfile, rule_report, rule_clock,
    rule_clock_rdtsc, rule_quiet, rule_verbose, rule_version, rule_cpulist, rule_vs, rule_table,
    rule_unrecognized, matchtable, match_loop, xerror, strcmp_eq_zero_iff, strncmp_eq_zero_iff,
    char_at]

theorem char_at_length (s : CStr) : char_at s s.length = NUL := by
  simp [char_at, List.getD]

theorem rule_vs_replicate (n : Nat) (hn : 1 ≤ n) (s : LoopVars) :
    rule_vs ('-' :: List.replicate n 'v') s =
      .next { cfg := { s.cfg with verbose_level := s.cfg.verbose_level + n }, recog := 1 } := by
  obtain ⟨m, rfl⟩ : ∃ m, n = m + 1 := ⟨n - 1, by omega⟩
  have hlen : count_vs (List.drop 1 ('-' :: List.replicate (m + 1) 'v')) 1 =
      ('-' :: List.replicate (m + 1) 'v').length := by
    simp [count_vs_replicate]; omega
  unfold rule_vs
  rw [if_pos (by simp [char_at, List.replicate_succ])]
  simp only [hlen, char_at_length, if_true]
  simp

theorem parse_arg_vs (n : Nat) (hn : 1 ≤ n) (c : RunConfig) :
    parse_arg ('-' :: List.replicate n 'v') c =
      .next { c with verbose_level := c.verbose_level + n } := by
  have hv := rule_vs_replicate n hn
  obtain ⟨m, rfl⟩ : ∃ m, n = m + 1 := ⟨n - 1, by omega⟩
  simp only [List.replicate_succ] at hv ⊢
  simp [parse_arg, rule_help, rule_load, rule_save, rule_outfile, rule_report, rule_clock,
    rule_clock_rdtsc, rule_quiet, rule_verbose, rule_version, rule_cpulist, hv, rule_table,
    rule_unrecognized, matchtable, match_loop, xerror, strcmp_eq_zero_iff, strncmp_eq_zero_iff]

theorem parse_loop_nil (c : RunConfig) : parse_loop [] c = .next c := rfl

theorem parse_loop_verbose (args : List CStr) (c : RunConfig)
    (h : ∀ t ∈ args, is_verbose_token t) :
    parse_loop args c =
      .next { c with verbose_level := c.verbose_level + (args.map verbosity_raise).sum } := by
  induction args generalizing c with
  | nil => rw [parse_loop_nil]; simp
  | cons t rest ih =>
    have ht := h t (List.mem_cons_self _ _)
    have hrest := fun u hu => h u (List.mem_cons_of_mem _ hu)
    rw [parse_loop_cons]
    rcases ht with rfl | ⟨n, hn, rfl⟩
    · rw [parse_arg_verbose]
      simp only
      rw [ih _ hrest]
      simp [verbosity_raise, add_assoc]
    · rw [parse_arg_vs n hn]
      simp only
      rw [ih _ hrest]
      have : verbosity_raise ('-' :: List.replicate n 'v') = n := by
        have hne : ('-' :: List.replicate n 'v') ≠ "--verbose".toList := by
          obtain ⟨m, rfl⟩ : ∃ m, n = m + 1 := ⟨n - 1, by omega⟩
          simp [List.replicate_succ]
        unfold verbosity_raise
        rw [if_neg hne]
        simp
      simp [this, add_assoc]

theorem answered_queries_append (xs ys : List Event) :
    answered_queries (xs ++ ys) = answered_queries xs ++ answered_queries ys := by
  simp [answered_queries, List.filterMap_append]

theorem answered_queries_print_info (qs : List output_data_switch) :
    answered_queries (qs.map Event.print_info) = qs := by
  induction qs with
  | nil => rfl
  | cons q rest ih =>
    simp only [answered_queries, List.map_cons, List.filterMap_cons] at ih ⊢
    rw [ih]

theorem andThen_answered_nil (a b : Stage) (ha : answered_queries a.trace = [])
    (hb : answered_queries b.trace = []) : answered_queries (a.andThen b).trace = [] := by
  unfold Stage.andThen
  split
  · exact ha
  · simp [answered_queries_append, ha, hb]

theorem stage_setup_answered (cfg : RunConfig) :
    answered_queries (stage_setup cfg).trace = [] := by
  unfold stage_setup; split <;> rfl

theorem stage_redirect_answered (cfg : RunConfig) (env : Env) :
    answered_queries (stage_redirect cfg env).trace = [] := by
  unfold stage_redirect; repeat' split
  all_goals rfl

theorem stage_version_answered (cfg : RunConfig) :
    answered_queries (stage_version cfg).trace = [] := by
  unfold stage_version; split <;> rfl

theorem stage_acquire_answered (cfg : RunConfig) (env : Env) :
    answered_queries (stage_acquire cfg env).trace = [] := by
  unfold stage_acquire; simp only; repeat' split
  all_goals rfl

theorem stage_save_answered (cfg : RunConfig) (env : Env) :
    answered_queries (stage_save cfg env).trace = [] := by
  unfold stage_save; simp only; repeat' split
  all_goals rfl

theorem stage_report_answered (cfg : RunConfig) (env : Env) :
    answered_queries (stage_report cfg env).trace = [] := by
  unfold stage_report; repeat' split
  all_goals rfl

theorem stage_cpulist_answered (cfg : RunConfig) :
    answered_queries (stage_cpulist cfg).trace = [] := by
  unfold stage_cpulist; split <;> rfl

theorem only_clock_queries_eq_one (qs : List output_data_switch)
    (h : ∀ q ∈ qs, q = NEED_CLOCK ∨ q = NEED_CLOCK_RDTSC) : only_clock_queries qs = 1 := by
  induction qs with
  | nil => rfl
  | cons q rest ih =>
    have hq := h q (List.mem_cons_self _ _)
    simp only [only_clock_queries]
    rw [if_neg (by rcases hq with h | h <;> simp [h])]
    exact ih (fun u hu => h u (List.mem_cons_of_mem _ hu))

/-- The driver up to the queries answers no query. -/
theorem run_driver_answered (cfg : RunConfig) (env : Env)
    (h : answered_queries (stage_queries cfg env).trace = []) :
    answered_queries (run_driver cfg env).trace = [] := by
  unfold run_driver
  exact andThen_answered_nil _ _ (andThen_answered_nil _ _ (andThen_answered_nil _ _
    (andThen_answered_nil _ _ (andThen_answered_nil _ _ (andThen_answered_nil _ _
    (andThen_answered_nil _ _ (stage_setup_answered cfg) (stage_redirect_answered cfg env))
    (stage_version_answered cfg)) (stage_acquire_answered cfg env))
    (stage_save_answered cfg env)) (stage_report_answered cfg env)) h)
    (stage_cpulist_answered cfg)

theorem table_kind_iff (a : CStr) (k : output_data_switch) :
    table_kind a = some k ↔ ∃ e ∈ matchtable, a = e.synopsis ∧ e.sw = k := by
  constructor
  · intro h
    unfold table_kind at h
    cases hf : matchtable.find? (fun e => decide (strcmp a e.synopsis = 0)) with
    | none => rw [hf] at h; cases h
    | some e =>
      rw [hf] at h
      simp only [Option.map_some', Option.some.injEq] at h
      have h1 := List.find?_some hf
      simp only [decide_eq_true_eq, strcmp_eq_zero_iff] at h1
      exact ⟨e, List.mem_of_find?_eq_some hf, h1, h⟩
  · rintro ⟨e, he, rfl, rfl⟩
    have key : ∀ e ∈ matchtable, table_kind e.synopsis = some e.sw := by decide
    exact key e he

theorem andThen_exit (a b : Stage) :
    (a.andThen b).exit = match a.exit with
      | some c => some c
      | none => b.exit := by
  unfold Stage.andThen
  cases h : a.exit <;> simp [h]

theorem andThen_trace_of_none (a b : Stage) (h : a.exit = none) :
    (a.andThen b).trace = a.trace ++ b.trace := by
  unfold Stage.andThen
  simp [h]

theorem andThen_of_some (a b : Stage) (c : Int) (h : a.exit = some c) :
    a.andThen b = a := by
  unfold Stage.andThen
  simp [h]

theorem stage_queries_answered (cfg : RunConfig) (env : Env) :
    (answered_queries (stage_queries cfg env).trace = cfg.requests ∨
      answered_queries (stage_queries cfg env).trace = []) ∧
    ((stage_queries cfg env).exit = none →
      (cfg.need_report = 0 ∨ only_clock_queries cfg.requests = 0) →
      answered_queries (stage_queries cfg env).trace = cfg.requests) := by
  unfold stage_queries
  by_cases h1 : (cfg.need_report = 0 ∨ only_clock_queries cfg.requests = 0) ∧
      cfg.num_requests > 0
  · rw [if_pos h1]
    by_cases h2 : check_need_raw_data cfg ≠ 0
    · rw [if_pos h2]
      by_cases h3 : env.identify_queries < 0
      · rw [if_pos h3]
        refine ⟨Or.inr ?_, fun he => by cases he⟩
        split <;> rfl
      · rw [if_neg h3]
        have : answered_queries ([Event.identify] ++ cfg.requests.map Event.print_info) =
            cfg.requests := by
          rw [answered_queries_append, answered_queries_print_info]; rfl
        exact ⟨Or.inl this, fun _ _ => this⟩
    · rw [if_neg h2]
      exact ⟨Or.inl (answered_queries_print_info _), fun _ _ => answered_queries_print_info _⟩
  · rw [if_neg h1]
    refine ⟨Or.inr rfl, fun _ hs => ?_⟩
    have hz : ¬ cfg.num_requests > 0 := fun hp => h1 ⟨hs, hp⟩
    have : cfg.requests = [] := by
      unfold RunConfig.num_requests at hz
      cases hr : cfg.requests with
      | nil => rfl
      | cons q rest => rw [hr] at hz; simp at hz
    rw [this]; rfl

/-- The stages of the driver before the queries. -/
theorem before_queries_answered (cfg : RunConfig) (env : Env) :
    answered_queries ((((((stage_setup cfg).andThen (stage_redirect cfg env)).andThen
      (stage_version cfg)).andThen (stage_acquire cfg env)).andThen
      (stage_save cfg env)).andThen (stage_report cfg env)).trace = [] :=
  andThen_answered_nil _ _ (andThen_answered_nil _ _ (andThen_answered_nil _ _
    (andThen_answered_nil _ _ (andThen_answered_nil _ _ (stage_setup_answered cfg)
    (stage_redirect_answered cfg env)) (stage_version_answered cfg))
    (stage_acquire_answered cfg env)) (stage_save_answered cfg env))
    (stage_report_answered cfg env)

theorem stage_queries_exit (cfg : RunConfig) (env : Env) :
    (stage_queries cfg env).exit ≠ some 0 := by
  unfold stage_queries
  repeat' split
  all_goals simp

theorem andThen_exit_ne (a b : Stage) (ha : a.exit ≠ some 0) (hb : b.exit ≠ some 0) :
    (a.andThen b).exit ≠ some 0 := by
  rw [andThen_exit]
  cases h : a.exit with
  | none => exact hb
  | some c => rw [h] at ha; exact ha

theorem before_queries_exit (cfg : RunConfig) (env : Env) :
    ((((((stage_setup cfg).andThen (stage_redirect cfg env)).andThen
      (stage_version cfg)).andThen (stage_acquire cfg env)).andThen
      (stage_save cfg env)).andThen (stage_report cfg env)).exit ≠ some 0 := by
  refine andThen_exit_ne _ _ (andThen_exit_ne _ _ (andThen_exit_ne _ _ (andThen_exit_ne _ _
    (andThen_exit_ne _ _ ?_ ?_) ?_) ?_) ?_) ?_
  · simp [stage_setup]
  · unfold stage_redirect; repeat' split
    all_goals simp
  · simp [stage_version]
  · unfold stage_acquire; simp only; repeat' split
    all_goals simp
  · unfold stage_save; simp only; repeat' split
    all_goals simp
  · unfold stage_report; repeat' split
    all_goals simp

/-- The driver answers the pending queries in their order, or none of them; it
answers them when it runs to its end and the suppression does not apply. -/
theorem run_driver_answers (cfg : RunConfig) (env : Env) :
    (answered_queries (run_driver cfg env).trace = cfg.requests ∨
      answered_queries (run_driver cfg env).trace = []) ∧
    ((run_driver cfg env).exit = some 0 →
      (cfg.need_report = 0 ∨ only_clock_queries cfg.requests = 0) →
      answered_queries (run_driver cfg env).trace = cfg.requests) := by
  have hpre := before_queries_answered cfg env
  have hpx := before_queries_exit cfg env
  have hq := stage_queries_answered cfg env
  have hc := stage_cpulist_answered cfg
  unfold run_driver
  generalize (((((stage_setup cfg).andThen (stage_redirect cfg env)).andThen
      (stage_version cfg)).andThen (stage_acquire cfg env)).andThen
      (stage_save cfg env)).andThen (stage_report cfg env) = pre at hpre hpx ⊢
  cases hpe : pre.exit with
  | some c =>
    rw [andThen_of_some pre _ c hpe, andThen_of_some pre _ c hpe]
    exact ⟨Or.inr hpre, fun h0 _ => absurd h0 hpx⟩
  | none =>
    cases hqe : (stage_queries cfg env).exit with
    | some c =>
      have h7 : (pre.andThen (stage_queries cfg env)).exit = some c := by
        rw [andThen_exit, hpe]; exact hqe
      rw [andThen_of_some _ _ c h7, andThen_trace_of_none _ _ hpe, answered_queries_append,
        hpre, List.nil_append]
      refine ⟨hq.1, fun h0 _ => ?_⟩
      rw [h7] at h0
      exact absurd (hqe.trans h0) (stage_queries_exit cfg env)
    | none =>
      have h7 : (pre.andThen (stage_queries cfg env)).exit = none := by
        rw [andThen_exit, hpe]; exact hqe
      rw [andThen_trace_of_none _ _ h7, andThen_trace_of_none _ _ hpe, answered_queries_append,
        answered_queries_append, hpre, hc, List.nil_append, List.append_nil]
      exact ⟨hq.1, fun _ hs => hq.2 hqe hs⟩

set_option maxHeartbeats 1000000 in
theorem parse_arg_synopsis (e : OptionEntry) (he : e ∈ matchtable) (c : RunConfig) :
    parse_arg e.synopsis c =
      if c.num_requests ≥ MAX_REQUESTS then
        .ret (-1) (.xerror "Too many requests!") (clock_flags e.synopsis c)
      else
        .next { clock_flags e.synopsis c with requests := c.requests ++ [e.sw] } := by
  simp only [matchtable, List.mem_cons, List.mem_singleton, List.not_mem_nil, or_false] at he
  by_cases hfull : c.num_requests ≥ MAX_REQUESTS <;>
    simp only [RunConfig.num_requests] at hfull
  · rcases he with rfl | rfl | rfl | rfl | rfl | rfl | rfl | rfl | rfl | rfl | rfl | rfl | rfl |
      rfl | rfl | rfl | rfl | rfl | rfl | rfl | rfl | rfl | rfl | rfl | rfl | rfl | rfl | rfl | rfl
    all_goals
      simp [parse_arg, rule_help, rule_load, rule_save, rule_outfile, rule_report, rule_clock,
        rule_clock_rdtsc, rule_quiet, rule_verbose, rule_version, rule_cpulist, rule_vs,
        rule_table, rule_unrecognized, matchtable, match_loop, xerror, strcmp_eq_zero_iff,
        strncmp_eq_zero_iff, char_at, clock_flags, RunConfig.num_requests, hfull]
  · rcases he with rfl | rfl | rfl | rfl | rfl | rfl | rfl | rfl | rfl | rfl | rfl | rfl | rfl |
      rfl | rfl | rfl | rfl | rfl | rfl | rfl | rfl | rfl | rfl | rfl | rfl | rfl | rfl | rfl | rfl
    all_goals
      simp [parse_arg, rule_help, rule_load, rule_save, rule_outfile, rule_report, rule_clock,
        rule_clock_rdtsc, rule_quiet, rule_verbose, rule_version, rule_cpulist, rule_vs,
        rule_table, rule_unrecognized, matchtable, match_loop, xerror, strcmp_eq_zero_iff,
        strncmp_eq_zero_iff, char_at, clock_flags, RunConfig.num_requests, hfull]

theorem clock_flags_requests (arg : CStr) (c : RunConfig) :
    (clock_flags arg c).requests = c.requests := by
  unfold clock_flags
  split
  · rfl
  · split <;> rfl

/-- While there is room, a command line of synopses is accepted argument by
argument. -/
theorem parse_loop_synopses (args : List CStr) (c : RunConfig)
    (h : ∀ a ∈ args, ∃ e ∈ matchtable, a = e.synopsis)
    (hroom : c.requests.length + args.length ≤ 32) :
    ∃ c1, parse_loop args c = .next c1 ∧
      c1.requests.length = c.requests.length + args.length := by
  induction args generalizing c with
  | nil => exact ⟨c, rfl, rfl⟩
  | cons a rest ih =>
    obtain ⟨e, he, rfl⟩ := h _ (List.mem_cons_self _ _)
    simp only [List.length_cons] at hroom
    have hnot : ¬ c.num_requests ≥ MAX_REQUESTS := by
      simp only [RunConfig.num_requests, MAX_REQUESTS]
      omega
    rw [parse_loop_cons, parse_arg_synopsis e he, if_neg hnot]
    simp only
    obtain ⟨c1, h1, h2⟩ := ih
      { clock_flags e.synopsis c with requests := c.requests ++ [e.sw] }
      (fun u hu => h u (List.mem_cons_of_mem _ hu))
      (by simp only [List.length_append, List.length_cons, List.length_nil]; omega)
    have h3 : c1.requests.length = (c.requests ++ [e.sw]).length + rest.length := h2
    refine ⟨c1, h1, ?_⟩
    rw [h3]
    simp only [List.length_append, List.length_cons, List.length_nil]
    omega

theorem parse_arg_outfile (rest : CStr) (c : RunConfig) :
    parse_arg ("--outfile=".toList ++ rest) c =
      if rest = [] then .ret (-1) (.xerror "--output: bad file specification!") c
      else if rest.length < 256 then .next { c with out_file := rest }
      else .undefined := by
  by_cases h3 : rest = [] <;> by_cases h4 : rest.length < 256 <;>
    simp [parse_arg, rule_help, rule_load, rule_save, rule_outfile, rule_report, rule_clock,
    rule_clock_rdtsc, rule_quiet, rule_verbose, rule_version, rule_cpulist, rule_vs, rule_table,
    rule_unrecognized, matchtable, match_loop, xerror, strcmp_eq_zero_iff, strncmp_eq_zero_iff,
    char_at, strlen_le_seven, strlen_le_ten, strcpy, h3, h4]

theorem first_match_load (rest : CStr) (c : RunConfig) :
    parse_arg_first_match ("--load=".toList ++ rest) c =
      parse_arg ("--load=".toList ++ rest) c := by
  rw [parse_arg_load]
  by_cases h1 : c.need_input = 0 <;> by_cases h2 : c.need_output = 0 <;>
    by_cases h3 : rest = [] <;> by_cases h4 : rest.length < 256 <;>
    simp [parse_arg_first_match, apply_rule, rule_load, rule_unrecognized, xerror,
      strcmp_eq_zero_iff, strncmp_eq_zero_iff, strlen_le_seven, strcpy, h1, h2, h3, h4]

theorem first_match_save (rest : CStr) (c : RunConfig) :
    parse_arg_first_match ("--save=".toList ++ rest) c =
      parse_arg ("--save=".toList ++ rest) c := by
  rw [parse_arg_save]
  by_cases h1 : c.need_input = 0 <;> by_cases h2 : c.need_output = 0 <;>
    by_cases h3 : rest = [] <;> by_cases h4 : rest.length < 256 <;>
    simp [parse_arg_first_match, apply_rule, rule_save, rule_unrecognized, xerror,
      strcmp_eq_zero_iff, strncmp_eq_zero_iff, strlen_le_seven, strcpy, h1, h2, h3, h4]

theorem first_match_outfile (rest : CStr) (c : RunConfig) :
    parse_arg_first_match ("--outfile=".toList ++ rest) c =
      parse_arg ("--outfile=".toList ++ rest) c := by
  rw [parse_arg_outfile]
  by_cases h3 : rest = [] <;> by_cases h4 : rest.length < 256 <;>
    simp [parse_arg_first_match, apply_rule, rule_outfile, rule_unrecognized, xerror,
      strcmp_eq_zero_iff, strncmp_eq_zero_iff, strlen_le_ten, strcpy, h3, h4]

/-- On the arguments that are spelled out in a flag rule other than the two
clock flags, the loop body applies that rule only. -/
theorem first_match_literal (arg : CStr) (c : RunConfig)
    (h : arg ∈ ["-h".toList, "--help".toList, "--report".toList, "--all".toList,
      "--quiet".toList, "--verbose".toList, "--version".toList, "--cpulist".toList]) :
    parse_arg_first_match arg c = parse_arg arg c := by
  simp only [List.mem_cons, List.mem_singleton, List.not_mem_nil, or_false] at h
  rcases h with rfl | rfl | rfl | rfl | rfl | rfl | rfl | rfl
  all_goals
    simp [parse_arg_first_match, apply_rule, parse_arg, rule_help, rule_load, rule_save,
      rule_outfile, rule_report, rule_clock, rule_clock_rdtsc, rule_quiet, rule_verbose,
      rule_version, rule_cpulist, rule_vs, rule_table, rule_unrecognized, matchtable,
      match_loop, xerror, strcmp_eq_zero_iff, strncmp_eq_zero_iff, char_at]

theorem first_match_vs (arg : CStr) (c : RunConfig)
    (h : (char_at arg 0 = '-' ∧ char_at arg 1 = 'v') ∧
      char_at arg (count_vs (arg.drop 1) 1) = NUL) :
    parse_arg_first_match arg c = parse_arg arg c := by
  obtain ⟨rest, rfl⟩ : ∃ rest, arg = '-' :: 'v' :: rest := by
    obtain ⟨⟨h0, h1⟩, _⟩ := h
    cases arg with
    | nil => exact absurd h0 (by decide)
    | cons a t =>
      cases t with
      | nil =>
        simp only [char_at, List.getD_cons_succ, List.getD_nil] at h1
        exact absurd h1 (by decide)
      | cons b rest =>
        simp only [char_at, List.getD_cons_zero, List.getD_cons_succ] at h0 h1
        exact ⟨rest, by rw [h0, h1]⟩
  have h2 : char_at ('-' :: 'v' :: rest) (count_vs ('v' :: rest) 1) = NUL := h.2
  have hv : ∀ s, rule_vs ('-' :: 'v' :: rest) s =
      .next { cfg := { s.cfg with verbose_level := s.cfg.verbose_level +
        ((count_vs (List.drop 1 ('-' :: 'v' :: rest)) 1 : Nat) - 1) }, recog := 1 } := by
    intro s
    unfold rule_vs
    rw [if_pos h.1]
    simp only
    rw [if_pos h.2]
  simp [parse_arg_first_match, apply_rule, parse_arg, rule_help, rule_load, rule_save,
    rule_outfile, rule_report, rule_clock, rule_clock_rdtsc, rule_quiet, rule_verbose,
    rule_version, rule_cpulist, hv, rule_table, rule_unrecognized, matchtable,
    match_loop, xerror, strcmp_eq_zero_iff, strncmp_eq_zero_iff, h2, h.1.1, h.1.2]

theorem first_match_table (arg : CStr) (c : RunConfig)
    (h1 : ¬ (strcmp arg "-h".toList = 0 ∨ strcmp arg "--help".toList = 0))
    (h2 : ¬ strncmp arg "--load=".toList 7 = 0)
    (h3 : ¬ strncmp arg "--save=".toList 7 = 0)
    (h4 : ¬ strncmp arg "--outfile=".toList 10 = 0)
    (h5 : ¬ (strcmp arg "--report".toList = 0 ∨ strcmp arg "--all".toList = 0))
    (h6 : ¬ strcmp arg "--clock".toList = 0)
    (h7 : ¬ strcmp arg "--clock-rdtsc".toList = 0)
    (h8 : ¬ strcmp arg "--quiet".toList = 0)
    (h9 : ¬ strcmp arg "--verbose".toList = 0)
    (h10 : ¬ strcmp arg "--version".toList = 0)
    (h11 : ¬ strcmp arg "--cpulist".toList = 0)
    (h12 : ¬ ((char_at arg 0 = '-' ∧ char_at arg 1 = 'v') ∧
      char_at arg (count_vs (arg.drop 1) 1) = NUL)) :
    parse_arg_first_match arg c = parse_arg arg c := by
  have hv : ∀ s, rule_vs arg s = .next s := by
    intro s
    unfold rule_vs
    split
    · rename_i hc
      simp only
      rw [if_neg (fun hn => h12 ⟨hc, hn⟩)]
    · rfl
  simp only [parse_arg_first_match, apply_rule, parse_arg, rule_help, rule_load, rule_save,
    rule_outfile, rule_report, rule_clock, rule_clock_rdtsc, rule_quiet, rule_verbose,
    rule_version, rule_cpulist, h1, h2, h3, h4, h5, h6, h7, h8, h9, h10, h11, h12, hv,
    if_false, Flow.bind_next]

theorem guarded_true (p n : Event → Bool) (t : List Event) : guarded p n true t = true := by
  induction t with
  | nil => rfl
  | cons ev rest ih => simp [guarded, ih]

theorem guarded_append (p n : Event → Bool) (h : Bool) (xs ys : List Event) :
    guarded p n h (xs ++ ys) = (guarded p n h xs && guarded p n (h || xs.any p) ys) := by
  induction xs generalizing h with
  | nil => simp [guarded]
  | cons x xs ih =>
    show guarded p n h (x :: (xs ++ ys)) = _
    simp only [guarded, List.any_cons]
    rw [ih, Bool.or_assoc, Bool.and_assoc]

theorem guarded_of_no_needs (p n : Event → Bool) (h : Bool) (t : List Event)
    (hn : ∀ ev ∈ t, n ev = false) : guarded p n h t = true := by
  induction t generalizing h with
  | nil => rfl
  | cons ev rest ih =>
    simp only [guarded, hn ev (List.mem_cons_self _ _), Bool.not_false, Bool.true_or,
      Bool.true_and]
    exact ih _ (fun e he => hn e (List.mem_cons_of_mem _ he))

/-- What the scan establishes: an event that needs something has an event that
provides it before itself. -/
theorem guarded_sound (p n : Event → Bool) (h : Bool) (t pre post : List Event) (ev : Event)
    (hg : guarded p n h t = true) (ht : t = pre ++ ev :: post) (hn : n ev = true) :
    h = true ∨ ∃ x ∈ pre, p x = true := by
  subst ht
  induction pre generalizing h with
  | nil =>
    simp only [List.nil_append, guarded, hn, Bool.not_true, Bool.false_or,
      Bool.and_eq_true] at hg
    exact Or.inl hg.1
  | cons x pre ih =>
    simp only [List.cons_append, guarded, Bool.and_eq_true] at hg
    rcases ih _ hg.2 with h1 | ⟨y, hy, hp⟩
    · simp only [Bool.or_eq_true] at h1
      rcases h1 with h1 | h1
      · exact Or.inl h1
      · exact Or.inr ⟨x, List.mem_cons_self _ _, h1⟩
    · exact Or.inr ⟨y, List.mem_cons_of_mem _ hy, hp⟩

theorem andThen_assoc (a b c : Stage) : (a.andThen b).andThen c = a.andThen (b.andThen c) := by
  unfold Stage.andThen
  cases ha : a.exit <;> cases hb : b.exit <;> simp [ha, hb]

theorem andThen_guarded (p n : Event → Bool) (h : Bool) (a b : Stage)
    (ha : guarded p n h a.trace = true)
    (hb : a.exit = none → guarded p n (h || a.trace.any p) b.trace = true) :
    guarded p n h (a.andThen b).trace = true := by
  cases he : a.exit with
  | some c => rw [andThen_of_some a b c he]; exact ha
  | none =>
    rw [andThen_trace_of_none a b he, guarded_append, ha, hb he]
    rfl

theorem reads_decoded_marked (q : output_data_switch) (h : reads_decoded q = true) :
    matchtable.any (fun e => decide (q = e.sw) && decide (e.ident_required ≠ 0)) = true := by
  revert h
  cases q <;> decide

theorem check_need_raw_data_of_request (cfg : RunConfig) (q : output_data_switch)
    (hq : q ∈ cfg.requests) (hr : reads_decoded q = true) : check_need_raw_data cfg = 1 := by
  unfold check_need_raw_data
  split
  · rfl
  · rw [if_pos]
    exact List.any_eq_true.mpr ⟨q, hq, reads_decoded_marked q hr⟩

theorem check_need_raw_data_of_output (cfg : RunConfig) (h : cfg.need_output ≠ 0) :
    check_need_raw_data cfg = 1 := by
  unfold check_need_raw_data
  rw [if_pos (Or.inl h)]

theorem check_need_raw_data_of_report (cfg : RunConfig) (h : cfg.need_report ≠ 0) :
    check_need_raw_data cfg = 1 := by
  unfold check_need_raw_data
  rw [if_pos (Or.inr h)]

theorem andThen_trace_mem (a b : Stage) (ev : Event) (h : ev ∈ (a.andThen b).trace) :
    ev ∈ a.trace ∨ ev ∈ b.trace := by
  cases he : a.exit with
  | some c => rw [andThen_of_some a b c he] at h; exact Or.inl h
  | none => rw [andThen_trace_of_none a b he] at h; exact List.mem_append.mp h

/-! ## The driver and the raw snapshot -/

theorem stage_setup_uses (cfg : RunConfig) :
    ∀ ev ∈ (stage_setup cfg).trace, uses_raw ev = false ∧ uses_decoded ev = false := by
  unfold stage_setup
  split <;> simp [uses_raw, uses_decoded]

theorem stage_redirect_uses (cfg : RunConfig) (env : Env) :
    ∀ ev ∈ (stage_redirect cfg env).trace, uses_raw ev = false ∧ uses_decoded ev = false := by
  unfold stage_redirect
  repeat' split
  all_goals simp [uses_raw, uses_decoded]

theorem stage_version_uses (cfg : RunConfig) :
    ∀ ev ∈ (stage_version cfg).trace, uses_raw ev = false ∧ uses_decoded ev = false := by
  unfold stage_version
  split <;> simp [uses_raw, uses_decoded]

theorem stage_acquire_uses (cfg : RunConfig) (env : Env) :
    ∀ ev ∈ (stage_acquire cfg env).trace, uses_raw ev = false ∧ uses_decoded ev = false := by
  unfold stage_acquire
  simp only
  repeat' split
  all_goals simp [uses_raw, uses_decoded]

theorem stage_save_uses (cfg : RunConfig) (env : Env) :
    ∀ ev ∈ (stage_save cfg env).trace,
      (cfg.need_output = 0 → uses_raw ev = false) ∧ uses_decoded ev = false := by
  unfold stage_save
  simp only
  repeat' split
  all_goals simp_all [uses_raw, uses_decoded]

theorem stage_cpulist_uses (cfg : RunConfig) :
    ∀ ev ∈ (stage_cpulist cfg).trace, uses_raw ev = false ∧ uses_decoded ev = false := by
  unfold stage_cpulist
  split <;> simp [uses_raw, uses_decoded]

theorem stage_report_unused (cfg : RunConfig) (env : Env) (h : cfg.need_report = 0) :
    (stage_report cfg env).trace = [] := by
  unfold stage_report
  rw [if_neg (by simp [h])]

theorem stage_queries_unused (cfg : RunConfig) (env : Env) (h : check_need_raw_data cfg = 0) :
    ∀ ev ∈ (stage_queries cfg env).trace, uses_raw ev = false := by
  have hq : ∀ q ∈ cfg.requests, reads_decoded q = false := by
    intro q hq
    cases hr : reads_decoded q with
    | false => rfl
    | true =>
      rw [check_need_raw_data_of_request cfg q hq hr] at h
      exact absurd h (by decide)
  unfold stage_queries
  split
  · rw [if_neg (by simp [h])]
    intro ev hev
    obtain ⟨q, hq1, rfl⟩ := List.mem_map.mp hev
    exact hq q hq1
  · intro ev hev
    cases hev

/-- The stages of the driver up to the acquisition of the raw snapshot. -/
theorem until_acquire_uses (cfg : RunConfig) (env : Env) :
    ∀ ev ∈ ((((stage_setup cfg).andThen (stage_redirect cfg env)).andThen
      (stage_version cfg)).andThen (stage_acquire cfg env)).trace, uses_raw ev = false := by
  intro ev hev
  rcases andThen_trace_mem _ _ _ hev with h | h
  · rcases andThen_trace_mem _ _ _ h with h | h
    · rcases andThen_trace_mem _ _ _ h with h | h
      · exact (stage_setup_uses cfg ev h).1
      · exact (stage_redirect_uses cfg env ev h).1
    · exact (stage_version_uses cfg ev h).1
  · exact (stage_acquire_uses cfg env ev h).1

theorem stage_acquire_acquires (cfg : RunConfig) (env : Env)
    (hneed : cfg.need_input ≠ 0 ∨ check_need_raw_data cfg ≠ 0)
    (hexit : (stage_acquire cfg env).exit = none) :
    (stage_acquire cfg env).trace.any (acquires env) = true := by
  unfold stage_acquire at hexit ⊢
  simp only at hexit ⊢
  split
  · rename_i hin
    rw [if_pos hin] at hexit
    split
    · rename_i hlt
      rw [if_pos hlt] at hexit
      cases hexit
    · rename_i hlt
      simp [acquires, Int.not_lt.mp hlt]
  · rename_i hin
    rw [if_neg hin] at hexit
    have hc : check_need_raw_data cfg ≠ 0 := hneed.resolve_left hin
    rw [if_pos hc] at hexit ⊢
    split
    · rename_i hlt
      rw [if_pos hlt] at hexit
      cases hexit
    · rename_i hlt
      simp [acquires, Int.not_lt.mp hlt]

theorem until_acquire_acquires (cfg : RunConfig) (env : Env)
    (hneed : cfg.need_input ≠ 0 ∨ check_need_raw_data cfg ≠ 0)
    (hexit : ((((stage_setup cfg).andThen (stage_redirect cfg env)).andThen
      (stage_version cfg)).andThen (stage_acquire cfg env)).exit = none) :
    ((((stage_setup cfg).andThen (stage_redirect cfg env)).andThen
      (stage_version cfg)).andThen (stage_acquire cfg env)).trace.any (acquires env) = true := by
  generalize ((stage_setup cfg).andThen (stage_redirect cfg env)).andThen
      (stage_version cfg) = pre at hexit ⊢
  rw [andThen_exit] at hexit
  cases hp : pre.exit with
  | some c => rw [hp] at hexit; cases hexit
  | none =>
    rw [hp] at hexit
    rw [andThen_trace_of_none _ _ hp, List.any_append,
      stage_acquire_acquires cfg env hneed hexit, Bool.or_true]

/-- In every run of the driver, an event that reads the raw snapshot comes
after a call that obtained it. -/
theorem run_driver_raw_guarded (cfg : RunConfig) (env : Env) :
    guarded (acquires env) uses_raw false (run_driver cfg env).trace = true := by
  by_cases hneed : cfg.need_input ≠ 0 ∨ check_need_raw_data cfg ≠ 0
  · unfold run_driver
    rw [andThen_assoc, andThen_assoc, andThen_assoc]
    apply andThen_guarded
    · exact guarded_of_no_needs _ _ _ _ (until_acquire_uses cfg env)
    · intro hexit
      rw [until_acquire_acquires cfg env hneed hexit, Bool.or_true]
      exact guarded_true _ _ _
  · have hin : cfg.need_input = 0 := by
      by_contra h; exact hneed (Or.inl h)
    have hc : check_need_raw_data cfg = 0 := by
      by_contra h; exact hneed (Or.inr h)
    have hout : cfg.need_output = 0 := by
      by_contra h
      rw [check_need_raw_data_of_output cfg h] at hc
      exact absurd hc (by decide)
    have hrep : cfg.need_report = 0 := by
      by_contra h
      rw [check_need_raw_data_of_report cfg h] at hc
      exact absurd hc (by decide)
    apply guarded_of_no_needs
    intro ev hev
    unfold run_driver at hev
    rcases andThen_trace_mem _ _ _ hev with h | h
    · rcases andThen_trace_mem _ _ _ h with h | h
      · rcases andThen_trace_mem _ _ _ h with h | h
        · rcases andThen_trace_mem _ _ _ h with h | h
          · exact until_acquire_uses cfg env ev h
          · exact (stage_save_uses cfg env ev h).1 hout
        · rw [stage_report_unused cfg env hrep] at h
          cases h
      · exact stage_queries_unused cfg env hc ev h
    · exact (stage_cpulist_uses cfg ev h).1

/-! ## The driver and the decoded data -/

theorem guarded_no_uses_decoded (h : Bool) (t : List Event)
    (hn : ∀ ev ∈ t, uses_decoded ev = false) :
    guarded is_identify uses_decoded h t = true :=
  guarded_of_no_needs _ _ _ _ hn

theorem stage_report_decoded (cfg : RunConfig) (env : Env) (h : Bool) :
    guarded is_identify uses_decoded h (stage_report cfg env).trace = true := by
  unfold stage_report
  repeat' split
  all_goals simp [guarded, is_identify, uses_decoded]

theorem stage_queries_decoded (cfg : RunConfig) (env : Env) (h : Bool) :
    guarded is_identify uses_decoded h (stage_queries cfg env).trace = true := by
  unfold stage_queries
  split
  · split
    · split
      · split <;> simp [guarded, is_identify, uses_decoded]
      · rw [guarded_append]
        simp [guarded, is_identify, uses_decoded, guarded_true]
    · rename_i hc
      have hc0 : check_need_raw_data cfg = 0 := by
        by_contra hne; exact hc hne
      apply guarded_no_uses_decoded
      intro ev hev
      obtain ⟨q, hq, rfl⟩ := List.mem_map.mp hev
      cases hr : reads_decoded q with
      | false => simp [uses_decoded, hr]
      | true =>
        rw [check_need_raw_data_of_request cfg q hq hr] at hc0
        exact absurd hc0 (by decide)
  · rfl

theorem andThen_guarded_any (p n : Event → Bool) (a b : Stage)
    (ha : ∀ h, guarded p n h a.trace = true) (hb : ∀ h, guarded p n h b.trace = true) (h : Bool) :
    guarded p n h (a.andThen b).trace = true :=
  andThen_guarded p n h a b (ha h) (fun _ => hb _)

/-- In every run of the driver, an event that reads the decoded data comes
after a call of `cpu_identify`. -/
theorem run_driver_decoded_guarded (cfg : RunConfig) (env : Env) :
    guarded is_identify uses_decoded false (run_driver cfg env).trace = true := by
  unfold run_driver
  refine andThen_guarded_any _ _ _ _ (andThen_guarded_any _ _ _ _ (andThen_guarded_any _ _ _ _
    (andThen_guarded_any _ _ _ _ (andThen_guarded_any _ _ _ _ (andThen_guarded_any _ _ _ _
    (andThen_guarded_any _ _ _ _ ?_ ?_) ?_) ?_) ?_) ?_) ?_) ?_ false
  · exact fun h => guarded_no_uses_decoded h _ (fun ev hev => (stage_setup_uses cfg ev hev).2)
  · exact fun h => guarded_no_uses_decoded h _
      (fun ev hev => (stage_redirect_uses cfg env ev hev).2)
  · exact fun h => guarded_no_uses_decoded h _ (fun ev hev => (stage_version_uses cfg ev hev).2)
  · exact fun h => guarded_no_uses_decoded h _
      (fun ev hev => (stage_acquire_uses cfg env ev hev).2)
  · exact fun h => guarded_no_uses_decoded h _ (fun ev hev => (stage_save_uses cfg env ev hev).2)
  · exact stage_report_decoded cfg env
  · exact stage_queries_decoded cfg env
  · exact fun h => guarded_no_uses_decoded h _ (fun ev hev => (stage_cpulist_uses cfg ev hev).2)

/-- A call of `parse_cmdline` that returns 1 has printed nothing. -/
theorem parse_cmdline_success_out (argv : List CStr) (r : ParseResult)
    (h : parse_cmdline argv initial_config = some r) (hret : r.ret = 1) : r.out = [] := by
  unfold parse_cmdline at h
  split at h
  · simp only [strcpy] at h
    split at h
    · injection h with h; subst h; rfl
    · cases h
  · cases hp : parse_loop (argv.drop 1) initial_config with
    | next c1 =>
      rw [hp] at h
      injection h with h; subst h; rfl
    | ret code ev c1 =>
      rw [hp] at h
      injection h with h; subst h
      rcases parse_loop_ret _ _ _ _ _ hp with ⟨h1, _⟩ | ⟨h1, _⟩ <;>
        · simp only at hret
          rw [h1] at hret
          exact absurd hret (by decide)
    | undefined => rw [hp] at h; cases h

theorem main_of_success (argv : List CStr) (r : ParseResult) (env : Env)
    (h : parse_cmdline argv initial_config = some r) (hret : r.ret = 1) :
    main argv env = some (run_driver r.cfg env) := by
  have hout := parse_cmdline_success_out argv r h hret
  simp only [main, h, hret, ne_eq, not_true_eq_false, if_false, hout]
  simp [Stage.andThen]

theorem Flow.bind_ne_undefined {α β : Type} (x : Flow α) (f : α → Flow β)
    (hx : x ≠ .undefined) (hf : ∀ a, f a ≠ .undefined) : x.bind f ≠ .undefined := by
  cases x with
  | next a => exact hf a
  | ret code ev cfg => intro h; cases h
  | undefined => exact absurd rfl hx

theorem match_loop_ne_undefined (arg : CStr) (table : List OptionEntry) (s : LoopVars) :
    match_loop arg table s ≠ .undefined := by
  induction table with
  | nil => intro h; cases h
  | cons e rest ih =>
    simp only [match_loop, xerror]
    split
    · split <;> (intro h; cases h)
    · exact ih

/-- When the paths fit, the loop body has a defined result. -/
theorem parse_arg_ne_undefined (arg : CStr) (c : RunConfig) (hfit : path_fits arg) :
    parse_arg arg c ≠ .undefined := by
  obtain ⟨hl, hs, ho⟩ := hfit
  unfold parse_arg
  refine Flow.bind_ne_undefined _ _ (Flow.bind_ne_undefined _ _
    (Flow.bind_ne_undefined _ _ (Flow.bind_ne_undefined _ _
    (Flow.bind_ne_undefined _ _ (Flow.bind_ne_undefined _ _
    (Flow.bind_ne_undefined _ _ (Flow.bind_ne_undefined _ _
    (Flow.bind_ne_undefined _ _ (Flow.bind_ne_undefined _ _
    (Flow.bind_ne_undefined _ _ (Flow.bind_ne_undefined _ _
    (Flow.bind_ne_undefined _ _ ?_ ?_) ?_) ?_) ?_) ?_) ?_) ?_) ?_) ?_) ?_) ?_) ?_) ?_
  · unfold rule_help; split <;> (intro h; cases h)
  · intro s; unfold rule_load xerror
    split
    · rename_i hp
      simp only [strcpy, if_pos (hl hp)]
      repeat' split
      all_goals (intro h; cases h)
    · intro h; cases h
  · intro s; unfold rule_save xerror
    split
    · rename_i hp
      simp only [strcpy, if_pos (hs hp)]
      repeat' split
      all_goals (intro h; cases h)
    · intro h; cases h
  · intro s; unfold rule_outfile xerror
    split
    · rename_i hp
      simp only [strcpy, if_pos (ho hp)]
      repeat' split
      all_goals (intro h; cases h)
    · intro h; cases h
  · intro s; unfold rule_report; split <;> (intro h; cases h)
  · intro s; unfold rule_clock; split <;> (intro h; cases h)
  · intro s; unfold rule_clock_rdtsc; split <;> (intro h; cases h)
  · intro s; unfold rule_quiet; split <;> (intro h; cases h)
  · intro s; unfold rule_verbose; split <;> (intro h; cases h)
  · intro s; unfold rule_version; split <;> (intro h; cases h)
  · intro s; unfold rule_cpulist; split <;> (intro h; cases h)
  · intro s; unfold rule_vs
    split
    · simp only
      split <;> (intro h; cases h)
    · intro h; cases h
  · intro s; exact match_loop_ne_undefined arg matchtable s
  · intro s; unfold rule_unrecognized
    split <;> (intro h; cases h)

theorem parse_loop_ne_undefined (args : List CStr) (c : RunConfig)
    (hfit : ∀ a ∈ args, path_fits a) : parse_loop args c ≠ .undefined := by
  induction args generalizing c with
  | nil => intro h; cases h
  | cons a rest ih =>
    rw [parse_loop_cons]
    cases hp : parse_arg a c with
    | next c1 => exact ih c1 (fun u hu => hfit u (List.mem_cons_of_mem _ hu))
    | ret code ev c1 => intro h; cases h
    | undefined => exact absurd hp (parse_arg_ne_undefined a c (hfit a (List.mem_cons_self _ _)))

/-- The result of `parse_cmdline` in terms of the loop, for every `argv`. -/
theorem parse_cmdline_eq (argv : List CStr) (c : RunConfig) (h : argv.length ≠ 1) :
    parse_cmdline argv c =
      match parse_loop (argv.drop 1) c with
      | .next c1 => some { ret := 1, cfg := c1, out := [] }
      | .ret code ev c1 => some { ret := code, cfg := c1, out := [ev] }
      | .undefined => none := by
  unfold parse_cmdline
  rw [if_neg h]

/-- When the paths fit, `parse_cmdline` returns. -/
theorem parse_cmdline_defined (argv : List CStr)
    (hfit : ∀ a ∈ argv.drop 1, path_fits a) :
    ∃ r, parse_cmdline argv initial_config = some r := by
  by_cases h : argv.length = 1
  · obtain ⟨x, rfl⟩ := List.length_eq_one.mp h
    exact ⟨_, parse_cmdline_no_arguments x⟩
  · rw [parse_cmdline_eq argv _ h]
    cases hp : parse_loop (argv.drop 1) initial_config with
    | next c1 => exact ⟨_, rfl⟩
    | ret code ev c1 => exact ⟨_, rfl⟩
    | undefined => exact absurd hp (parse_loop_ne_undefined _ _ hfit)

/-- A plain flag is accepted and leaves the input and output options alone. -/
theorem plain_flag_next (a : CStr) (c : RunConfig) (h : plain_flag a) :
    ∃ c1, parse_arg a c = .next c1 ∧ c1.need_input = c.need_input ∧
      c1.need_output = c.need_output := by
  simp only [plain_flag, List.mem_cons, List.mem_singleton, List.not_mem_nil, or_false] at h
  rcases h with rfl | rfl | rfl | rfl | rfl | rfl
  all_goals
    simp [parse_arg, rule_help, rule_load, rule_save, rule_outfile, rule_report, rule_clock,
      rule_clock_rdtsc, rule_quiet, rule_verbose, rule_version, rule_cpulist, rule_vs,
      rule_table, rule_unrecognized, matchtable, match_loop, xerror, strcmp_eq_zero_iff,
      strncmp_eq_zero_iff, char_at]

theorem plain_flags_loop (args : List CStr) (c : RunConfig) (h : ∀ a ∈ args, plain_flag a) :
    ∃ c1, parse_loop args c = .next c1 ∧ c1.need_input = c.need_input ∧
      c1.need_output = c.need_output := by
  induction args generalizing c with
  | nil => exact ⟨c, rfl, rfl, rfl⟩
  | cons a rest ih =>
    obtain ⟨c1, h1, h2, h3⟩ := plain_flag_next a c (h a (List.mem_cons_self _ _))
    obtain ⟨c2, h4, h5, h6⟩ := ih c1 (fun u hu => h u (List.mem_cons_of_mem _ hu))
    refine ⟨c2, ?_, h5.trans h2, h6.trans h3⟩
    rw [parse_loop_cons, h1]
    exact h4

/-- When `parse_cmdline` does not return 1, `main` returns its value at once. -/
theorem main_of_failure (argv : List CStr) (r : ParseResult) (env : Env)
    (h : parse_cmdline argv initial_config = some r) (hret : r.ret ≠ 1) :
    main argv env = some { exit := some r.ret, trace := r.out } := by
  simp only [main, h, hret, ne_eq, not_false_eq_true, if_true]

/-- The call of `parse_cmdline` on arguments split at one of them: the loop
first runs over the arguments before it. -/
theorem parse_cmdline_split (prog : CStr) (pre post : List CStr) (a : CStr) (c : RunConfig) :
    parse_cmdline (prog :: (pre ++ a :: post)) c =
      match parse_loop pre c with
      | .next c1 =>
        (match parse_loop (a :: post) c1 with
          | .next c2 => some { ret := 1, cfg := c2, out := [] }
          | .ret code ev c2 => some { ret := code, cfg := c2, out := [ev] }
          | .undefined => none)
      | .ret code ev c1 => some { ret := code, cfg := c1, out := [ev] }
      | .undefined => none := by
  obtain ⟨x, rest, hx⟩ : ∃ x rest, pre ++ a :: post = x :: rest := by
    cases pre with
    | nil => exact ⟨a, post, rfl⟩
    | cons x rest => exact ⟨x, rest ++ a :: post, rfl⟩
  rw [hx, parse_cmdline_cons, ← hx, parse_loop_append]
  cases parse_loop pre c <;> rfl

/-- When `parse_cmdline` returns 1, the query list holds the kinds of the
arguments that are a synopsis of the option table, in their order. -/
theorem requests_of_success (argv : List CStr) (r : ParseResult)
    (h : parse_cmdline argv initial_config = some r) (hret : r.ret = 1) :
    r.cfg.requests = (argv.drop 1).filterMap table_kind := by
  unfold parse_cmdline at h
  split at h
  · rename_i hlen
    simp only [strcpy] at h
    split at h
    · injection h with h; subst h
      obtain ⟨x, rfl⟩ : ∃ x, argv = [x] := List.length_eq_one.mp hlen
      rfl
    · cases h
  · cases hp : parse_loop (argv.drop 1) initial_config with
    | next c1 =>
      rw [hp] at h
      injection h with h; subst h
      simpa [initial_config] using parse_loop_requests _ _ _ hp
    | ret code ev c1 =>
      rw [hp] at h
      injection h with h; subst h
      rcases parse_loop_ret _ _ _ _ _ hp with ⟨h1, _⟩ | ⟨h1, _⟩ <;>
        · simp only at hret
          rw [h1] at hret
          exact absurd hret (by decide)
    | undefined => rw [hp] at h; cases h

theorem only_clock_queries_eq_zero (qs : List output_data_switch)
    (h : ∃ q ∈ qs, q ≠ NEED_CLOCK ∧ q ≠ NEED_CLOCK_RDTSC) : only_clock_queries qs = 0 := by
  induction qs with
  | nil =>
    obtain ⟨q, hq, _⟩ := h
    cases hq
  | cons x rest ih =>
    simp only [only_clock_queries]
    split
    · rfl
    · rename_i hx
      obtain ⟨q, hq, hq1⟩ := h
      rcases List.mem_cons.mp hq with rfl | hmem
      · exact absurd hq1 hx
      · exact ih ⟨q, hmem, hq1⟩

theorem andThen_exit_of_none (a b : Stage) (h : a.exit = none) :
    (a.andThen b).exit = b.exit := by
  rw [andThen_exit, h]

/-- When no checked library call fails, the driver runs to its end. -/
theorem run_driver_exit (cfg : RunConfig) (env : Env) (hok : no_failure env) :
    (run_driver cfg env).exit = some 0 := by
  obtain ⟨h1, h2, h3, h4, h5⟩ := hok
  have e1 : (stage_setup cfg).exit = none := rfl
  have e2 : (stage_redirect cfg env).exit = none := by
    simp only [stage_redirect, h1, if_true]
    split <;> rfl
  have e3 : (stage_version cfg).exit = none := rfl
  have e4 : (stage_acquire cfg env).exit = none := by
    simp only [stage_acquire, if_neg (Int.not_lt.mpr h2), if_neg (Int.not_lt.mpr h3)]
    repeat' split
    all_goals rfl
  have e5 : (stage_save cfg env).exit = none := by
    simp only [stage_save, if_neg (Int.not_lt.mpr h4)]
    split <;> rfl
  have e6 : (stage_report cfg env).exit = none := by
    unfold stage_report
    split <;> rfl
  have e7 : (stage_queries cfg env).exit = none := by
    simp only [stage_queries, if_neg (Int.not_lt.mpr h5)]
    repeat' split
    all_goals rfl
  have e8 : (stage_cpulist cfg).exit = some 0 := rfl
  unfold run_driver
  have a2 := (andThen_exit_of_none _ (stage_redirect cfg env) e1).trans e2
  have a3 := (andThen_exit_of_none _ (stage_version cfg) a2).trans e3
  have a4 := (andThen_exit_of_none _ (stage_acquire cfg env) a3).trans e4
  have a5 := (andThen_exit_of_none _ (stage_save cfg env) a4).trans e5
  have a6 := (andThen_exit_of_none _ (stage_report cfg env) a5).trans e6
  have a7 := (andThen_exit_of_none _ (stage_queries cfg env) a6).trans e7
  exact (andThen_exit_of_none _ (stage_cpulist cfg) a7).trans e8

/-- With the report requested and only `NEED_CLOCK` and `NEED_CLOCK_RDTSC`
pending, the driver answers no query. -/
theorem run_driver_suppressed (cfg : RunConfig) (env : Env) (hrep : cfg.need_report ≠ 0)
    (hq : ∀ q ∈ cfg.requests, q = NEED_CLOCK ∨ q = NEED_CLOCK_RDTSC) :
    answered_queries (run_driver cfg env).trace = [] := by
  apply run_driver_answered
  unfold stage_queries
  rw [if_neg]
  · rfl
  · rintro ⟨h | h, _⟩
    · exact hrep h
    · rw [only_clock_queries_eq_one _ hq] at h
      exact absurd h (by decide)

/-- When a call of `parse_cmdline` on the initial globals has a result and
returns 1, the input option and the output option are not both set. -/
theorem exclusive_of_success (argv : List CStr) (r : ParseResult)
    (h : parse_cmdline argv initial_config = some r) (hret : r.ret = 1) :
    ¬ (r.cfg.need_input ≠ 0 ∧ r.cfg.need_output ≠ 0) ∧
    ¬ (r.cfg.need_input = 1 ∧ r.cfg.need_output = 1) := by
  have key : load_save_exclusive r.cfg := by
    unfold parse_cmdline at h
    split at h
    · simp only [strcpy] at h
      split at h
      · injection h with h; subst h
        rename_i h1 h2
        simp [load_save_exclusive, initial_config]
      · cases h
    · cases hp : parse_loop (argv.drop 1) initial_config with
      | next c1 =>
        rw [hp] at h
        injection h with h; subst h
        exact parse_loop_exclusive _ _ _ hp initial_exclusive
      | ret code ev c1 =>
        rw [hp] at h
        injection h with h; subst h
        rcases parse_loop_ret _ _ _ _ _ hp with ⟨h1, _⟩ | ⟨h1, _⟩ <;>
          · simp only at hret
            rw [h1] at hret
            exact absurd hret (by decide)
      | undefined => rw [hp] at h; cases h
  refine ⟨key, fun hboth => key ⟨?_, ?_⟩⟩
  · rw [hboth.1]; decide
  · rw [hboth.2]; decide

/-! ## The properties of the specification -/

/-! ### C1 -/

/-- C2, as stated, fails: the single token `-vv` raises `verbose_level` to 2,
not to the number of tokens, 1; and with no token at all the defaults apply and
`verbose_level` is 1, not 0. -/
theorem verbose_count_counterexample :
    (¬ ∀ (prog : CStr) (args : List CStr), (∀ t ∈ args, is_verbose_token t) →
      ∃ r, parse_cmdline (prog :: args) initial_config = some r ∧ r.ret = 1 ∧
        r.cfg.verbose_level = args.length) ∧
    (parse_cmdline ["cpuid_tool".toList] initial_config).map (fun r => r.cfg.verbose_level) =
      some 1 := by
  refine ⟨fun h => ?_, by decide⟩
  obtain ⟨r, hr, _, hv⟩ := h "cpuid_tool".toList ["-vv".toList] (by
    intro t ht
    rw [List.mem_singleton.mp ht]
    exact Or.inr ⟨2, by decide, by decide⟩)
  have : parse_cmdline ["cpuid_tool".toList, "-vv".toList] initial_config =
      some { ret := 1, cfg := { initial_config with verbose_level := 2 }, out := [] } := by
    decide
  rw [this] at hr
  injection hr with hr
  subst hr
  exact absurd hv (by decide)

/-- C2, amended: on a non-empty argument vector made only of `--verbose` tokens
and tokens `-v`, `-vv`, `-vvv`, ..., `parse_cmdline` returns 1, changes nothing
but `verbose_level`, and `verbose_level` is the sum over the tokens of one for a
`--verbose` and of the number of `v` characters for a `-v...` token. -/
theorem verbose_count (prog : CStr) (args : List CStr) (hne : args ≠ [])
    (h : ∀ t ∈ args, is_verbose_token t) :
    parse_cmdline (prog :: args) initial_config =
      some { ret := 1, out := [],
             cfg := { initial_config with verbose_level := (args.map verbosity_raise).sum } } := by
  cases args with
  | nil => exact absurd rfl hne
  | cons a rest =>
    rw [parse_cmdline_cons, parse_loop_verbose _ _ h]
    simp [initial_config]

/-- C2, witness: `cpuid_tool --verbose -vvv -v` ends with `verbose_level` 5. -/
theorem verbose_count_witness :
    parse_cmdline ["cpuid_tool".toList, "--verbose".toList, "-vvv".toList, "-v".toList]
      initial_config =
      some { ret := 1, out := [], cfg := { initial_config with verbose_level := 5 } } :=
  verbose_count "cpuid_tool".toList ["--verbose".toList, "-vvv".toList, "-v".toList]
    (by decide) (by
      intro t ht
      simp only [List.mem_cons, List.mem_singleton, List.not_mem_nil, or_false] at ht
      rcases ht with rfl | rfl | rfl
      · exact Or.inl rfl
      · exact Or.inr ⟨3, by decide, by decide⟩
      · exact Or.inr ⟨1, by decide, by decide⟩)

/-! ### C3 -/

/-- C3, as stated, fails: in `cpuid_tool -h --bogus` the argument `--bogus`
matches no rule, yet the call returns 0 and prints the usage text. -/
theorem no_rule_rejected_counterexample :
    ¬ ∀ (prog : CStr) (pre post : List CStr) (a : CStr), matches_no_rule a →
      ∃ r, parse_cmdline (prog :: (pre ++ a :: post)) initial_config = some r ∧
        r.ret ≠ 0 ∧ r.out = [.unrecognized_option a] := by
  intro h
  obtain ⟨r, hr, hret, _⟩ := h "cpuid_tool".toList ["-h".toList] [] "--bogus".toList (by decide)
  have : parse_cmdline ("cpuid_tool".toList :: (["-h".toList] ++ "--bogus".toList :: []))
      initial_config = some { ret := 0, cfg := initial_config, out := [.usage_text] } := by
    decide
  rw [this] at hr
  injection hr with hr
  subst hr
  exact hret rfl

/-- C3, amended: for every argument vector in which some argument matches no
rule and the `--load=`, `--save=` and `--outfile=` paths before it have at most
255 characters, `parse_cmdline` returns and never returns 1: it returns -1, or 0
with the usage text when `-h` or `--help` stands before that argument, and
`main` returns that value at once. Either an argument before it has already
stopped the parse, or the call returns -1 and reports the argument as an
unrecognized option, leaving the globals as they were before it; it is reported
whenever the arguments before it are plain flags. -/
theorem no_rule_rejected (prog : CStr) (pre post : List CStr) (a : CStr)
    (hfit : ∀ x ∈ pre, path_fits x) (h : matches_no_rule a) :
    ∃ r, parse_cmdline (prog :: (pre ++ a :: post)) initial_config = some r ∧
      (r.ret = -1 ∨
        (r.ret = 0 ∧ r.out = [.usage_text] ∧ ("-h".toList ∈ pre ∨ "--help".toList ∈ pre))) ∧
      (∀ env, main (prog :: (pre ++ a :: post)) env =
        some { exit := some r.ret, trace := r.out }) ∧
      ((∃ code ev c, parse_loop pre initial_config = .ret code ev c ∧
          r = { ret := code, cfg := c, out := [ev] }) ∨
        (∃ c, parse_loop pre initial_config = .next c ∧
          r = { ret := -1, cfg := c, out := [.unrecognized_option a] })) ∧
      ((∀ x ∈ pre, plain_flag x) → r.ret = -1 ∧ r.out = [.unrecognized_option a]) := by
  have hcons : ∀ c, parse_loop (a :: post) c = .ret (-1) (.unrecognized_option a) c := by
    intro c
    rw [parse_loop_cons, parse_arg_no_rule a c h]
  have hsplit := parse_cmdline_split prog pre post a initial_config
  cases hp : parse_loop pre initial_config with
  | next c1 =>
    rw [hp] at hsplit
    simp only [hcons] at hsplit
    refine ⟨_, hsplit, Or.inl rfl, fun env => main_of_failure _ _ env hsplit (show (-1 : Int) ≠ 1 by decide),
      Or.inr ⟨c1, rfl, rfl⟩, fun _ => ⟨rfl, rfl⟩⟩
  | ret code ev c1 =>
    rw [hp] at hsplit
    simp only at hsplit
    have hcode := parse_loop_ret _ _ _ _ _ hp
    have hne : code ≠ 1 := by
      rcases hcode with ⟨h1, _⟩ | ⟨h1, _⟩ <;> rw [h1] <;> decide
    refine ⟨_, hsplit, ?_, fun env => main_of_failure _ _ env hsplit hne,
      Or.inl ⟨code, ev, c1, rfl, rfl⟩, fun hflags => ?_⟩
    · rcases hcode with ⟨h1, h2, h3⟩ | ⟨h1, _⟩
      · exact Or.inr ⟨h1, by rw [h2], h3⟩
      · exact Or.inl h1
    · obtain ⟨c2, h2, _, _⟩ := plain_flags_loop pre initial_config hflags
      rw [h2] at hp
      cases hp
  | undefined => exact absurd hp (parse_loop_ne_undefined _ _ hfit)

/-- C3, witness: in `cpuid_tool --quiet --bogus --report` the loop reaches
`--bogus` and reports it, and `main` returns -1 at once. -/
theorem no_rule_rejected_witness :
    main bogus_argv all_ok =
      some { exit := some (-1), trace := [.unrecognized_option "--bogus".toList] } :=
  (no_rule_rejected "cpuid_tool".toList ["--quiet".toList] ["--report".toList]
    "--bogus".toList (by decide) (by decide)).elim
    (fun r hr => by
      have h4 := hr.2.2.2.2 (by decide)
      have h3 := hr.2.2.1 all_ok
      rw [h4.1, h4.2] at h3
      exact h3)

/-! ### C4 -/

/-- C4, as stated, fails: after `cpuid_tool --report --clock-os` the only pending
query is the clock-kind query `NEED_CLOCK_OS`, and the driver answers it after
the report. -/
theorem clock_suppression_counterexample :
    (¬ ∀ (cfg : RunConfig) (env : Env), cfg.need_report ≠ 0 →
      (∀ q ∈ cfg.requests, q = NEED_CLOCK ∨ q = NEED_CLOCK_OS ∨ q = NEED_CLOCK_RDTSC) →
      answered_queries (run_driver cfg env).trace = []) ∧
    parse_cmdline ["cpuid_tool".toList, "--report".toList, "--clock-os".toList] initial_config =
      some { ret := 1, cfg := report_clock_os_config, out := [] } ∧
    answered_queries (run_driver report_clock_os_config all_ok).trace = [NEED_CLOCK_OS] := by
  have h2 : answered_queries (run_driver report_clock_os_config all_ok).trace =
      [NEED_CLOCK_OS] := by decide
  refine ⟨fun h => ?_, by decide, h2⟩
  have h1 := h report_clock_os_config all_ok (by decide) (by decide)
  rw [h2] at h1
  cases h1

/-- C4, amended: when the full report is requested and every pending query is
`NEED_CLOCK` or `NEED_CLOCK_RDTSC`, the driver answers none of the pending
queries. -/
theorem clock_suppression (cfg : RunConfig) (env : Env) (hrep : cfg.need_report ≠ 0)
    (hq : ∀ q ∈ cfg.requests, q = NEED_CLOCK ∨ q = NEED_CLOCK_RDTSC) :
    answered_queries (run_driver cfg env).trace = [] ∧
    (stage_queries cfg env).trace = [] := by
  have hs : stage_queries cfg env = { exit := none, trace := [] } := by
    unfold stage_queries
    rw [if_neg]
    rintro ⟨h | h, _⟩
    · exact hrep h
    · rw [only_clock_queries_eq_one _ hq] at h
      exact absurd h (by decide)
  exact ⟨run_driver_answered cfg env (by rw [hs]; rfl), by rw [hs]⟩

/-- C4, witness: after `cpuid_tool --report --clock --clock-rdtsc` no query is
answered. -/
theorem clock_suppression_witness :
    answered_queries (run_driver report_clock_config all_ok).trace = [] :=
  (clock_suppression report_clock_config all_ok (by decide) (by decide)).1

/-! ### C5 -/

/-- C5: called with no argument, `parse_cmdline` returns the same value and
leaves the same globals as called, from the initial globals, with
`--save=raw.txt --outfile=report.txt --report --verbose`. -/
theorem no_arguments_default (prog : CStr) :
    parse_cmdline [prog] initial_config = parse_cmdline (prog :: default_args) initial_config ∧
    parse_cmdline [prog] initial_config = some default_result := by
  have h1 := parse_cmdline_no_arguments prog
  have h2 : parse_cmdline (prog :: default_args) initial_config = some default_result := by
    rw [default_args, parse_cmdline_cons]
    have : parse_loop ["--save=raw.txt".toList, "--outfile=report.txt".toList,
        "--report".toList, "--verbose".toList] initial_config = .next default_result.cfg := by
      decide
    rw [this]
    rfl
  exact ⟨h1.trans h2.symm, h1⟩

/-! ### C6 -/

/-- C6: on a command line made only of synopses of the option table,
`parse_cmdline` returns 1 when there are at most `MAX_REQUESTS` = 32 arguments;
when there are more, the first 32 are accepted into the query list and the call
fails with `Too many requests!` at the 33rd. -/
theorem too_many_requests (prog : CStr) (args : List CStr)
    (h : ∀ a ∈ args, ∃ e ∈ matchtable, a = e.synopsis) :
    (args.length ≤ 32 →
      ∃ r, parse_cmdline (prog :: args) initial_config = some r ∧ r.ret = 1 ∧
        r.cfg.requests = args.filterMap table_kind ∧ r.cfg.requests.length = args.length) ∧
    (∀ first a rest, args = first ++ a :: rest → first.length = 32 →
      ∃ c32, parse_loop first initial_config = .next c32 ∧
        c32.requests = first.filterMap table_kind ∧ c32.requests.length = 32 ∧
        parse_arg a c32 = .ret (-1) (.xerror "Too many requests!") (clock_flags a c32) ∧
        (clock_flags a c32).requests = c32.requests ∧
        parse_cmdline (prog :: args) initial_config =
          some { ret := -1, cfg := clock_flags a c32,
                 out := [.xerror "Too many requests!"] }) := by
  constructor
  · intro hlen
    cases args with
    | nil => exact ⟨default_result, parse_cmdline_no_arguments prog, rfl, rfl, rfl⟩
    | cons a rest =>
      obtain ⟨c1, h1, h2⟩ := parse_loop_synopses (a :: rest) initial_config h
        (by simpa [initial_config] using hlen)
      refine ⟨{ ret := 1, cfg := c1, out := [] }, ?_, rfl, ?_, ?_⟩
      · rw [parse_cmdline_cons, h1]
      · simpa [initial_config] using parse_loop_requests _ _ _ h1
      · simpa [initial_config] using h2
  · intro first a rest hargs hlen
    subst hargs
    obtain ⟨c32, h1, h2⟩ := parse_loop_synopses first initial_config
      (fun u hu => h u (List.mem_append_left _ hu))
      (by simp [initial_config, hlen])
    have h32 : c32.requests.length = 32 := by
      rw [h2, hlen]; simp [initial_config]
    obtain ⟨e, he, rfl⟩ := h a (List.mem_append_right _ (List.mem_cons_self _ _))
    have hfull : c32.num_requests ≥ MAX_REQUESTS := by
      simp only [RunConfig.num_requests, MAX_REQUESTS, h32]
      decide
    have harg : parse_arg e.synopsis c32 =
        .ret (-1) (.xerror "Too many requests!") (clock_flags e.synopsis c32) := by
      rw [parse_arg_synopsis e he, if_pos hfull]
    refine ⟨c32, h1, ?_, h32, harg, clock_flags_requests _ _, ?_⟩
    · simpa [initial_config] using parse_loop_requests _ _ _ h1
    · obtain ⟨x, xs, hx⟩ : ∃ x xs, first ++ e.synopsis :: rest = x :: xs := by
        cases first with
        | nil => exact ⟨_, _, rfl⟩
        | cons x xs => exact ⟨x, xs ++ e.synopsis :: rest, rfl⟩
      rw [hx, parse_cmdline_cons, ← hx, parse_loop_append, h1]
      simp only
      rw [parse_loop_cons, harg]

/-- C6, witness: 32 times `--cpuid` is accepted, 33 times `--cpuid` fails with
`Too many requests!`. -/
theorem too_many_requests_witness :
    (parse_cmdline ("cpuid_tool".toList :: List.replicate 32 "--cpuid".toList)
      initial_config).map (fun r => r.ret) = some 1 ∧
    (parse_cmdline ("cpuid_tool".toList :: List.replicate 33 "--cpuid".toList)
      initial_config).map (fun r => (r.ret, r.out)) =
      some (-1, [.xerror "Too many requests!"]) :=
  have h32 := (too_many_requests "cpuid_tool".toList (List.replicate 32 "--cpuid".toList)
    (fun a ha => ⟨⟨NEED_CPUID_PRESENT, "--cpuid".toList, 0⟩, by decide,
      List.eq_of_mem_replicate ha⟩)).1 (by decide)
  have h33 := (too_many_requests "cpuid_tool".toList (List.replicate 33 "--cpuid".toList)
    (fun a ha => ⟨⟨NEED_CPUID_PRESENT, "--cpuid".toList, 0⟩, by decide,
      List.eq_of_mem_replicate ha⟩)).2
    (List.replicate 32 "--cpuid".toList) "--cpuid".toList [] (by decide) (by decide)
  ⟨h32.elim (fun r hr => by rw [hr.1, Option.map_some', hr.2.1]),
   h33.elim (fun c hc => by rw [hc.2.2.2.2.2, Option.map_some'])⟩

/-! ### C7 -/

/-- C7, as stated, fails: after `cpuid_tool --report --clock` the query list is
`NEED_CLOCK`, and the driver, in which no call fails, answers no query. -/
theorem query_list_order_counterexample :
    (¬ ∀ (argv : List CStr) (r : ParseResult) (env : Env),
      parse_cmdline argv initial_config = some r → r.ret = 1 → no_failure env →
      answered_queries (run_driver r.cfg env).trace = r.cfg.requests) ∧
    parse_cmdline ["cpuid_tool".toList, "--report".toList, "--clock".toList] initial_config =
      some report_clock_result ∧
    report_clock_result.cfg.requests = [NEED_CLOCK] ∧
    answered_queries (run_driver report_clock_result.cfg all_ok).trace = [] := by
  have h1 : parse_cmdline ["cpuid_tool".toList, "--report".toList, "--clock".toList]
      initial_config = some report_clock_result := by decide
  have h2 : answered_queries (run_driver report_clock_result.cfg all_ok).trace = [] := by
    decide
  refine ⟨fun h => ?_, h1, rfl, h2⟩
  have h3 := h _ _ all_ok h1 rfl (by decide)
  rw [h2] at h3
  cases h3

/-- C7, amended: for every argument vector whose `--load=`, `--save=` and
`--outfile=` paths have at most 255 characters, `parse_cmdline` returns, and when
it returns 1 the query list is the sequence, in command-line order, of the kinds
of the arguments that are equal to a synopsis of the option table (exact match;
`--cache` and `--l2-cache` both give `NEED_L2_SIZE`). The driver, which `main`
then runs, answers all the queries in that order or none of them: all of them
when no library call that it checks fails and the report is not requested or
some query is neither `NEED_CLOCK` nor `NEED_CLOCK_RDTSC`; none when the report
is requested and every query is `NEED_CLOCK` or `NEED_CLOCK_RDTSC`. -/
theorem query_list_order (argv : List CStr) (hfit : ∀ a ∈ argv.drop 1, path_fits a) :
    ∃ r, parse_cmdline argv initial_config = some r ∧
      (r.ret = 1 →
        r.cfg.requests = (argv.drop 1).filterMap table_kind ∧
        ∀ env,
          main argv env = some (run_driver r.cfg env) ∧
          (answered_queries (run_driver r.cfg env).trace = r.cfg.requests ∨
            answered_queries (run_driver r.cfg env).trace = []) ∧
          (no_failure env →
            (r.cfg.need_report = 0 ∨
              ∃ q ∈ r.cfg.requests, q ≠ NEED_CLOCK ∧ q ≠ NEED_CLOCK_RDTSC) →
            (run_driver r.cfg env).exit = some 0 ∧
            answered_queries (run_driver r.cfg env).trace = r.cfg.requests) ∧
          (r.cfg.need_report ≠ 0 →
            (∀ q ∈ r.cfg.requests, q = NEED_CLOCK ∨ q = NEED_CLOCK_RDTSC) →
            answered_queries (run_driver r.cfg env).trace = [])) ∧
      (∀ a k, table_kind a = some k ↔ ∃ e ∈ matchtable, a = e.synopsis ∧ e.sw = k) ∧
      (table_kind "--cache".toList = some NEED_L2_SIZE ∧
        table_kind "--l2-cache".toList = some NEED_L2_SIZE) := by
  obtain ⟨r, hr⟩ := parse_cmdline_defined argv hfit
  refine ⟨r, hr, fun hret => ⟨requests_of_success argv r hr hret, fun env => ?_⟩,
    table_kind_iff, ⟨by decide, by decide⟩⟩
  have hans := run_driver_answers r.cfg env
  refine ⟨main_of_success argv r env hr hret, hans.1, fun hok hsup => ?_,
    fun hrep hq => run_driver_suppressed r.cfg env hrep hq⟩
  have hexit := run_driver_exit r.cfg env hok
  refine ⟨hexit, hans.2 hexit ?_⟩
  rcases hsup with h | h
  · exact Or.inl h
  · exact Or.inr (only_clock_queries_eq_zero _ h)

/-- C7, witness: `cpuid_tool --report --family --cache` leaves the two kinds in
that order, and after the report the driver answers them in that order. -/
theorem query_list_order_witness :
    parse_cmdline ["cpuid_tool".toList, "--report".toList, "--family".toList, "--cache".toList]
      initial_config = some report_family_cache_result ∧
    report_family_cache_result.cfg.requests = [NEED_FAMILY, NEED_L2_SIZE] ∧
    answered_queries (run_driver report_family_cache_result.cfg all_ok).trace =
      [NEED_FAMILY, NEED_L2_SIZE] :=
  have hp : parse_cmdline
      ["cpuid_tool".toList, "--report".toList, "--family".toList, "--cache".toList]
      initial_config = some report_family_cache_result := by decide
  (query_list_order
    ["cpuid_tool".toList, "--report".toList, "--family".toList, "--cache".toList]
    (by decide)).elim
    (fun r hr => by
      have hrr : r = report_family_cache_result := Option.some.inj (hr.1.symm.trans hp)
      subst hrr
      exact ⟨hp, rfl, ((hr.2.1 rfl).2 all_ok).2.2.1 (by decide)
        (Or.inr ⟨NEED_FAMILY, by decide, by decide, by decide⟩) |>.2⟩)

/-! ### C8 -/

set_option maxRecDepth 100000 in
/-- C8: for every argument vector whose `--load=`, `--save=` and `--outfile=`
paths have at most 255 characters, `parse_cmdline` returns, and when it returns
1 the input option and the output option are not both set. The code has no such
bound on the paths: in `cpuid_tool --save=a --outfile=P` with a path `P` of 257
characters, `--save=a` is accepted and sets `need_output`, and the `strcpy` of
`P` into the 256-byte `out_file` (line 237) then writes past the end of the
buffer, where the call has no defined result. -/
theorem input_output_overflow :
    (∀ argv : List CStr, (∀ a ∈ argv.drop 1, path_fits a) →
      ∃ r, parse_cmdline argv initial_config = some r ∧
        (r.ret = 1 →
          ¬ (r.cfg.need_input ≠ 0 ∧ r.cfg.need_output ≠ 0) ∧
          ¬ (r.cfg.need_input = 1 ∧ r.cfg.need_output = 1))) ∧
    parse_loop ["--save=a".toList] initial_config = .next save_a_config ∧
    save_a_config.need_output = 1 ∧
    (overlong_outfile.drop 10).length = 257 ∧
    ¬ path_fits overlong_outfile ∧
    strcpy 256 (overlong_outfile.drop 10) = none ∧
    parse_arg overlong_outfile save_a_config = .undefined ∧
    parse_cmdline overlong_outfile_argv initial_config = none := by
  refine ⟨fun argv hfit => ?_, by decide, rfl, by decide, by decide, by decide, by decide,
    by decide⟩
  obtain ⟨r, hr⟩ := parse_cmdline_defined argv hfit
  exact ⟨r, hr, fun hret => exclusive_of_success argv r hr hret⟩

/-- C8, witness: `cpuid_tool --save=r --report`, whose path fits, is accepted,
with the output option set and the input option not set. -/
theorem input_output_overflow_witness :
    parse_cmdline ["cpuid_tool".toList, "--save=r".toList, "--report".toList] initial_config =
      some save_report_result ∧
    save_report_result.ret = 1 ∧
    ¬ (save_report_result.cfg.need_input ≠ 0 ∧ save_report_result.cfg.need_output ≠ 0) :=
  have hp : parse_cmdline ["cpuid_tool".toList, "--save=r".toList, "--report".toList]
      initial_config = some save_report_result := by decide
  (input_output_overflow.1 ["cpuid_tool".toList, "--save=r".toList, "--report".toList]
    (by decide)).elim
    (fun r hr => by
      have hrr : r = save_report_result := Option.some.inj (hr.1.symm.trans hp)
      subst hrr
      exact ⟨hp, rfl, (hr.2 rfl).1⟩)

/-! ### C9 -/

/-- C9, as stated, fails: for `--clock` the flag rule sets `need_clockreport`
and the table rule also appends `NEED_CLOCK` to the query list, whereas with
"first match wins" the query list would stay empty. -/
theorem first_match_counterexample :
    (¬ ∀ (arg : CStr) (c : RunConfig), parse_arg arg c = parse_arg_first_match arg c) ∧
    parse_arg "--clock".toList initial_config =
      .next { initial_config with need_clockreport := 1, requests := [NEED_CLOCK] } ∧
    parse_arg_first_match "--clock".toList initial_config =
      .next { initial_config with need_clockreport := 1 } := by
  have h1 : parse_arg "--clock".toList initial_config =
      .next { initial_config with need_clockreport := 1, requests := [NEED_CLOCK] } := by
    decide
  have h2 : parse_arg_first_match "--clock".toList initial_config =
      .next { initial_config with need_clockreport := 1 } := by decide
  refine ⟨fun h => ?_, h1, h2⟩
  have h3 := h "--clock".toList initial_config
  rw [h1, h2] at h3
  exact absurd h3 (by decide)

/-- C9, amended: the rules are evaluated per argument one after the other and
every rule the argument matches takes effect. For every argument except
`--clock` and `--clock-rdtsc` this is the effect of the first matching rule
alone. `--clock` and `--clock-rdtsc` match their flag rule and the table rule:
the flags are set and, if there is room, the query is appended as well. -/
theorem first_match_except_clock (c : RunConfig) :
    (∀ arg, arg ≠ "--clock".toList → arg ≠ "--clock-rdtsc".toList →
      parse_arg arg c = parse_arg_first_match arg c) ∧
    parse_arg "--clock".toList c =
      (if c.num_requests ≥ MAX_REQUESTS then
        .ret (-1) (.xerror "Too many requests!") { c with need_clockreport := 1 }
      else .next { c with need_clockreport := 1, requests := c.requests ++ [NEED_CLOCK] }) ∧
    parse_arg "--clock-rdtsc".toList c =
      (if c.num_requests ≥ MAX_REQUESTS then
        .ret (-1) (.xerror "Too many requests!")
          { c with need_clockreport := 1, need_timed_clockreport := 1 }
      else .next { c with need_clockreport := 1, need_timed_clockreport := 1,
                          requests := c.requests ++ [NEED_CLOCK_RDTSC] }) := by
  refine ⟨fun arg hc hr => ?_, ?_, ?_⟩
  · by_cases h1 : strcmp arg "-h".toList = 0 ∨ strcmp arg "--help".toList = 0
    · simp only [strcmp_eq_zero_iff] at h1
      exact (first_match_literal arg c (by
        rcases h1 with h | h <;> simp [h])).symm
    by_cases h2 : strncmp arg "--load=".toList 7 = 0
    · obtain ⟨rest, rfl⟩ := (strncmp_lit_iff arg "--load=".toList).mp h2
      exact (first_match_load rest c).symm
    by_cases h3 : strncmp arg "--save=".toList 7 = 0
    · obtain ⟨rest, rfl⟩ := (strncmp_lit_iff arg "--save=".toList).mp h3
      exact (first_match_save rest c).symm
    by_cases h4 : strncmp arg "--outfile=".toList 10 = 0
    · obtain ⟨rest, rfl⟩ := (strncmp_lit_iff arg "--outfile=".toList).mp h4
      exact (first_match_outfile rest c).symm
    by_cases h5 : strcmp arg "--report".toList = 0 ∨ strcmp arg "--all".toList = 0
    · simp only [strcmp_eq_zero_iff] at h5
      exact (first_match_literal arg c (by
        rcases h5 with h | h <;> simp [h])).symm
    have h6 : ¬ strcmp arg "--clock".toList = 0 := by
      rw [strcmp_eq_zero_iff]; exact hc
    have h7 : ¬ strcmp arg "--clock-rdtsc".toList = 0 := by
      rw [strcmp_eq_zero_iff]; exact hr
    by_cases h8 : strcmp arg "--quiet".toList = 0
    · rw [strcmp_eq_zero_iff] at h8
      exact (first_match_literal arg c (by simp [h8])).symm
    by_cases h9 : strcmp arg "--verbose".toList = 0
    · rw [strcmp_eq_zero_iff] at h9
      exact (first_match_literal arg c (by simp [h9])).symm
    by_cases h10 : strcmp arg "--version".toList = 0
    · rw [strcmp_eq_zero_iff] at h10
      exact (first_match_literal arg c (by simp [h10])).symm
    by_cases h11 : strcmp arg "--cpulist".toList = 0
    · rw [strcmp_eq_zero_iff] at h11
      exact (first_match_literal arg c (by simp [h11])).symm
    by_cases h12 : (char_at arg 0 = '-' ∧ char_at arg 1 = 'v') ∧
        char_at arg (count_vs (arg.drop 1) 1) = NUL
    · exact (first_match_vs arg c h12).symm
    exact (first_match_table arg c h1 h2 h3 h4 h5 h6 h7 h8 h9 h10 h11 h12).symm
  · have := parse_arg_synopsis ⟨NEED_CLOCK, "--clock".toList, 0⟩ (by decide) c
    simpa [clock_flags] using this
  · have := parse_arg_synopsis ⟨NEED_CLOCK_RDTSC, "--clock-rdtsc".toList, 1⟩ (by decide) c
    simpa [clock_flags] using this

/-- C9, witness: `--quiet` matches one rule only, and the loop body does what
that rule alone does. -/
theorem first_match_except_clock_witness :
    parse_arg "--quiet".toList initial_config =
      parse_arg_first_match "--quiet".toList initial_config :=
  (first_match_except_clock initial_config).1 "--quiet".toList (by decide) (by decide)

/-! ### C10 -/

/-- C10: `check_need_raw_data` returns true (1, otherwise 0) exactly when a save
destination was requested, or the full report, or some pending query has a row
in the option table that is marked `ident_required`; it returns 0 when neither
save nor report is requested and every pending query is one of `--cpuid`,
`--clock`, `--clock-os`, `--rdmsr`. -/
theorem check_need_raw_data_iff (cfg : RunConfig) :
    (check_need_raw_data cfg ≠ 0 ↔
      cfg.need_output ≠ 0 ∨ cfg.need_report ≠ 0 ∨
      ∃ q ∈ cfg.requests, ∃ e ∈ matchtable, e.sw = q ∧ e.ident_required ≠ 0) ∧
    (check_need_raw_data cfg = 1 ∨ check_need_raw_data cfg = 0) ∧
    (cfg.need_output = 0 → cfg.need_report = 0 →
      (∀ q ∈ cfg.requests, q = NEED_CPUID_PRESENT ∨ q = NEED_CLOCK ∨ q = NEED_CLOCK_OS ∨
        q = NEED_RDMSR) →
      check_need_raw_data cfg = 0) ∧
    (table_kind "--cpuid".toList = some NEED_CPUID_PRESENT ∧
      table_kind "--clock".toList = some NEED_CLOCK ∧
      table_kind "--clock-os".toList = some NEED_CLOCK_OS ∧
      table_kind "--rdmsr".toList = some NEED_RDMSR) := by
  have hiff : check_need_raw_data cfg ≠ 0 ↔
      cfg.need_output ≠ 0 ∨ cfg.need_report ≠ 0 ∨
      ∃ q ∈ cfg.requests, ∃ e ∈ matchtable, e.sw = q ∧ e.ident_required ≠ 0 := by
    unfold check_need_raw_data
    by_cases h1 : cfg.need_output ≠ 0 ∨ cfg.need_report ≠ 0
    · rw [if_pos h1]
      constructor
      · intro _
        rcases h1 with h | h
        · exact Or.inl h
        · exact Or.inr (Or.inl h)
      · intro _; decide
    · rw [if_neg h1]
      have h1' : ¬ cfg.need_output ≠ 0 ∧ ¬ cfg.need_report ≠ 0 := not_or.mp h1
      constructor
      · intro h
        split at h
        · rename_i hany
          simp only [List.any_eq_true, Bool.and_eq_true, decide_eq_true_eq] at hany
          obtain ⟨q, hq, e, he, h3, h4⟩ := hany
          exact Or.inr (Or.inr ⟨q, hq, e, he, h3.symm, h4⟩)
        · exact absurd rfl h
      · rintro (h | h | ⟨q, hq, e, he, h3, h4⟩)
        · exact absurd h h1'.1
        · exact absurd h h1'.2
        · rw [if_pos]
          · decide
          · simp only [List.any_eq_true, Bool.and_eq_true, decide_eq_true_eq]
            exact ⟨q, hq, e, he, h3.symm, h4⟩
  refine ⟨hiff, ?_, ?_, by decide, by decide, by decide, by decide⟩
  · unfold check_need_raw_data
    split
    · exact Or.inl rfl
    · split
      · exact Or.inl rfl
      · exact Or.inr rfl
  · intro ho hr hq
    by_contra hne
    rcases hiff.mp hne with h | h | ⟨q, hq1, e, he, h3, h4⟩
    · exact h ho
    · exact h hr
    · have hq2 := hq q hq1
      subst h3
      have key : ∀ e ∈ matchtable, e.ident_required ≠ 0 →
          ¬ (e.sw = NEED_CPUID_PRESENT ∨ e.sw = NEED_CLOCK ∨ e.sw = NEED_CLOCK_OS ∨
            e.sw = NEED_RDMSR) := by decide
      exact key e he h4 hq2

/-- C10, witness: for the lone `--cpuid` query no raw data is needed. -/
theorem check_need_raw_data_witness : check_need_raw_data cpuid_only_config = 0 :=
  (check_need_raw_data_iff cpuid_only_config).2.2.1 rfl rfl (by decide)

/-! ### C11 -/

/-- C11: after a successful parse the driver is what `main` runs, and in its
trace every serialization of the raw snapshot, every call of `cpu_identify`,
the report block and every answer to a query whose `print_info` arm reads the
decoded data come after a call that loaded or read the raw snapshot without
failing; the report block and every such answer also come after a call of
`cpu_identify`. The queries that read the decoded data are all but
`NEED_CPUID_PRESENT`, `NEED_CLOCK`, `NEED_CLOCK_OS`, `NEED_CLOCK_RDTSC` and
`NEED_RDMSR`; each has a row in the option table, every row of such a query is
marked `ident_required`, and `check_need_raw_data` is true for a query list that
contains one. -/
theorem driver_uses_obtained_data (argv : List CStr) (r : ParseResult) (env : Env)
    (h : parse_cmdline argv initial_config = some r) (hret : r.ret = 1) :
    main argv env = some (run_driver r.cfg env) ∧
    (∀ pre ev post, (run_driver r.cfg env).trace = pre ++ ev :: post → uses_raw ev = true →
      ∃ x ∈ pre, acquires env x = true) ∧
    (∀ pre ev post, (run_driver r.cfg env).trace = pre ++ ev :: post →
      uses_decoded ev = true → Event.identify ∈ pre) ∧
    (∀ q, reads_decoded q = false ↔
      q ∈ [NEED_CPUID_PRESENT, NEED_CLOCK, NEED_CLOCK_OS, NEED_CLOCK_RDTSC, NEED_RDMSR]) ∧
    (∀ q, reads_decoded q = true → ∃ e ∈ matchtable, e.sw = q) ∧
    (∀ e ∈ matchtable, reads_decoded e.sw = true → e.ident_required ≠ 0) ∧
    (∀ q ∈ r.cfg.requests, reads_decoded q = true → check_need_raw_data r.cfg = 1) := by
  refine ⟨main_of_success argv r env h hret, ?_, ?_, ?_, ?_, ?_, ?_⟩
  · intro pre ev post ht hu
    rcases guarded_sound _ _ _ _ pre post ev (run_driver_raw_guarded r.cfg env) ht hu with hf | hx
    · cases hf
    · exact hx
  · intro pre ev post ht hu
    rcases guarded_sound _ _ _ _ pre post ev (run_driver_decoded_guarded r.cfg env) ht hu
      with hf | ⟨x, hx, hi⟩
    · cases hf
    · cases x <;> first | exact hx | cases hi
  · intro q
    cases q <;> decide
  · intro q
    cases q <;> decide
  · decide
  · exact fun q hq hr => check_need_raw_data_of_request r.cfg q hq hr

/-- C11, witness: in `cpuid_tool --load=f --report --vendorstr` the raw snapshot
is loaded and `cpu_identify` is called before the vendor string is printed. -/
theorem driver_uses_obtained_data_witness :
    (run_driver load_report_vendor_result.cfg all_ok).trace =
      [.set_verbosiness_level 0, .deserialize_raw_data "f".toList, .report_cpuid_present,
       .identify, .report_body, .identify] ++ .print_info NEED_VENDOR_STR :: [] ∧
    (∃ x ∈ [Event.set_verbosiness_level 0, .deserialize_raw_data "f".toList,
        .report_cpuid_present, .identify, .report_body, .identify],
      acquires all_ok x = true) ∧
    Event.identify ∈ [Event.set_verbosiness_level 0, .deserialize_raw_data "f".toList,
        .report_cpuid_present, .identify, .report_body, .identify] :=
  have hw := driver_uses_obtained_data
    ["cpuid_tool".toList, "--load=f".toList, "--report".toList, "--vendorstr".toList]
    load_report_vendor_result all_ok (by decide) rfl
  have ht : (run_driver load_report_vendor_result.cfg all_ok).trace =
      [.set_verbosiness_level 0, .deserialize_raw_data "f".toList, .report_cpuid_present,
       .identify, .report_body, .identify] ++ .print_info NEED_VENDOR_STR :: [] := by decide
  ⟨ht, hw.2.1 _ _ _ ht (by decide), hw.2.2.1 _ _ _ ht (by decide)⟩

end CpuidTool
